import Mathlib

/-!
# EmCPU: a shallow embedding of the x86-64 emulator core

This file formalises the execution core of the EmCPU JavaScript emulator.
The authoritative source is the built core `src/public/emcpu.umd.js` (the
repository also carries `src/cpu/cpu.js`, an earlier development copy of the
same class that lacks the interrupt unit, the `halted` flag and the paging
R/W check; where the two copies disagree the bundle is the complete, current
program and is the one embedded here).  Line references in comments point
into `src/public/emcpu.umd.js`.

Modelling conventions:

* JavaScript `BigInt` register and memory values are modelled as `Nat`
  (or `Int` where the source can produce negative intermediate values,
  e.g. sign-extended immediates and arithmetic results).  `x & (2^k - 1)`
  on a non-negative BigInt is `x % 2^k`, `x & ~(2^k - 1)` is
  `x / 2^k * 2^k`, and on a possibly negative BigInt masking is the
  Euclidean remainder `Int.emod`; these translations are noted where used.
* Physical memory (`Memory` backed by a `DataView`) is a byte store,
  little-endian for multi-byte accesses, modelled as a total function
  `Nat → Nat`.  The JS buffer is finite and `DataView` throws on
  out-of-range accesses; none of the properties studied here exercises
  that path, so the embedding leaves memory unbounded.
* The mutable `CPU` object is a `CPUState` record; methods become
  functions in a state-plus-exceptions monad `M` in which a thrown
  exception aborts the computation but keeps all mutations performed so
  far, exactly like a JS `throw` inside a method working on `this`.
* The dynamic field access `this[fullReg]` of the register file is
  modelled by a string-indexed map `regs : String → Nat`, mirroring the
  JS `registers` name table.
-/

namespace EmCPU

/-! ## Physical memory (Memory class, emcpu.umd.js lines 23-55) -/

/-- Byte-addressed physical memory.  `DataView` stores bytes; all
multi-byte accessors below are little-endian like the source. -/
def Mem : Type := Nat → Nat

/-- `view.setUint8(addr, Number(value))`: stores the low byte. -/
def memWriteUint8 (m : Mem) (addr v : Nat) : Mem :=
  fun x => if x = addr then v % 256 else m x

/-- `view.getUint8(addr)`. -/
def memReadUint8 (m : Mem) (addr : Nat) : Nat := m addr

/-- Little-endian read of `n` bytes starting at `addr`. -/
def readBytesLE (m : Mem) (addr : Nat) : Nat → Nat
  | 0 => 0
  | n + 1 => m addr % 256 + 256 * readBytesLE m (addr + 1) n

/-- Little-endian write of the `n` low bytes of `v` starting at `addr`. -/
def writeBytesLE (m : Mem) (addr v : Nat) : Nat → Mem
  | 0 => m
  | n + 1 => writeBytesLE (memWriteUint8 m addr v) (addr + 1) (v / 256) n

/-- `readUint16(addr)` (little-endian). -/
def memReadUint16 (m : Mem) (addr : Nat) : Nat := readBytesLE m addr 2

/-- `readUint32(addr)` (little-endian). -/
def memReadUint32 (m : Mem) (addr : Nat) : Nat := readBytesLE m addr 4

/-- `readBigUint64(addr)` (little-endian). -/
def memReadBigUint64 (m : Mem) (addr : Nat) : Nat := readBytesLE m addr 8

/-- `writeUint16(addr, value)`; `setUint16` keeps the low 16 bits. -/
def memWriteUint16 (m : Mem) (addr v : Nat) : Mem := writeBytesLE m addr v 2

/-- `writeUint32(addr, value)`; `setUint32` keeps the low 32 bits. -/
def memWriteUint32 (m : Mem) (addr v : Nat) : Mem := writeBytesLE m addr v 4

/-- `writeBigUint64(addr, value)`; `setBigUint64` keeps the low 64 bits. -/
def memWriteBigUint64 (m : Mem) (addr v : Nat) : Mem := writeBytesLE m addr v 8

/-! ## Errors

The source distinguishes `PageFaultException` (carrying an error code,
lines 115-121) from every other thrown `Error`; `step`'s catch block tests
only `instanceof PageFaultException`, so all other throw sites are collapsed
into `jsError` with an identifying message. -/

inductive Err : Type where
  /-- `throw new PageFaultException(message, errorCode)`. -/
  | pageFault (errorCode : Nat)
  /-- any other JS exception (`Error`, `ReferenceError`, ...). -/
  | jsError (msg : String)
deriving DecidableEq, Repr

/-! ## CPU state (constructor, emcpu.umd.js lines 250-340) -/

/-- The split flag bits `this.flags`; the source stores JS numbers 0/1.
The JS field named `if` is called `iflag` here (`if` is reserved). -/
structure Flags : Type where
  cf : Nat
  zf : Nat
  sf : Nat
  of : Nat
  iflag : Nat
deriving DecidableEq, Repr

/-- The mutable CPU object.  The sixteen GPRs, the six segment registers and
the (otherwise unused) `rflags` field are kept in the string-indexed map
`regs`, mirroring the dynamic accesses `this[fullReg]` of the register
file; all remaining fields are the like-named JS fields.  `mode` is the JS
mode string (`"real"`, `"protected"`, `"protected_32bit_paging"`,
`"protected_pae"`, `"long"`). -/
structure CPUState : Type where
  mem : Mem
  regs : String → Nat
  rip : Nat
  flags : Flags
  halted : Bool
  mode : String
  cr0 : Nat
  cr2 : Nat
  cr3 : Nat
  cr4 : Nat
  efer : Nat
  idtrBase : Nat
  idtrLimit : Nat
  gdtrBase : Nat
  gdtrLimit : Nat
  interruptQueue : List Nat
  /-- `this.operandSizeOverride`: set by `step` (0x66 prefix); absent until
  the first `step` in JS (undefined, i.e. falsy). -/
  operandSizeOverride : Bool
  /-- `this.addressSizeOverride`: set by `step` (0x67 prefix). -/
  addressSizeOverride : Bool

/-! ## Register file (emcpu.umd.js lines 300-400) -/

/-- The `this.registers` name table: maps every register name to the name of
the backing 64-bit field (lines 300-339). -/
def registersMap : String → Option String
  | "rax" => some "rax" | "rcx" => some "rcx" | "rdx" => some "rdx" | "rbx" => some "rbx"
  | "rsp" => some "rsp" | "rbp" => some "rbp" | "rsi" => some "rsi" | "rdi" => some "rdi"
  | "r8" => some "r8" | "r9" => some "r9" | "r10" => some "r10" | "r11" => some "r11"
  | "r12" => some "r12" | "r13" => some "r13" | "r14" => some "r14" | "r15" => some "r15"
  | "eax" => some "rax" | "ecx" => some "rcx" | "edx" => some "rdx" | "ebx" => some "rbx"
  | "esp" => some "rsp" | "ebp" => some "rbp" | "esi" => some "rsi" | "edi" => some "rdi"
  | "r8d" => some "r8" | "r9d" => some "r9" | "r10d" => some "r10" | "r11d" => some "r11"
  | "r12d" => some "r12" | "r13d" => some "r13" | "r14d" => some "r14" | "r15d" => some "r15"
  | "ax" => some "rax" | "cx" => some "rcx" | "dx" => some "rdx" | "bx" => some "rbx"
  | "sp" => some "rsp" | "bp" => some "rbp" | "si" => some "rsi" | "di" => some "rdi"
  | "r8w" => some "r8" | "r9w" => some "r9" | "r10w" => some "r10" | "r11w" => some "r11"
  | "r12w" => some "r12" | "r13w" => some "r13" | "r14w" => some "r14" | "r15w" => some "r15"
  | "al" => some "rax" | "cl" => some "rcx" | "dl" => some "rdx" | "bl" => some "rbx"
  | "ah" => some "rax" | "ch" => some "rcx" | "dh" => some "rdx" | "bh" => some "rbx"
  | "spl" => some "rsp" | "bpl" => some "rbp" | "sil" => some "rsi" | "dil" => some "rdi"
  | "r8b" => some "r8" | "r9b" => some "r9" | "r10b" => some "r10" | "r11b" => some "r11"
  | "r12b" => some "r12" | "r13b" => some "r13" | "r14b" => some "r14" | "r15b" => some "r15"
  | "rflags" => some "rflags" | "eflags" => some "rflags"
  | "cs" => some "cs" | "ds" => some "ds" | "es" => some "es"
  | "ss" => some "ss" | "fs" => some "fs" | "gs" => some "gs"
  | _ => none

/-- `assembleRFlags()` (lines 2596-2606): CF bit 0, ZF bit 6, SF bit 7,
IF bit 9, OF bit 11, and bit 1 always set. -/
def assembleRFlags (s : CPUState) : Nat :=
  (if s.flags.cf ≠ 0 then 1 else 0) +
  (if s.flags.zf ≠ 0 then 2 ^ 6 else 0) +
  (if s.flags.sf ≠ 0 then 2 ^ 7 else 0) +
  (if s.flags.of ≠ 0 then 2 ^ 11 else 0) +
  (if s.flags.iflag ≠ 0 then 2 ^ 9 else 0) +
  2

/-- `readRegister(regName, sizeBytes)` (lines 342-364): returns the
zero-extended sub-view.  `rflags`/`eflags` reads return the assembled
RFLAGS; unknown names and sizes throw. -/
def readRegister (s : CPUState) (regName : String) (sizeBytes : Nat) :
    Except Err Nat :=
  if regName = "rflags" ∨ regName = "eflags" then
    Except.ok (assembleRFlags s)
  else
    match registersMap regName with
    | none => Except.error (Err.jsError "read unknown register name")
    | some fullReg =>
      let val := s.regs fullReg
      if sizeBytes = 1 then
        -- JS: ['ah','ch','dh','bh'].includes(regName) selects bits 15:8
        if regName ∈ ["ah", "ch", "dh", "bh"] then
          Except.ok (val / 2 ^ 8 % 2 ^ 8)   -- (val >> 8n) & 0xFFn
        else
          Except.ok (val % 2 ^ 8)           -- val & 0xFFn
      else if sizeBytes = 2 then Except.ok (val % 2 ^ 16)
      else if sizeBytes = 4 then Except.ok (val % 2 ^ 32)
      else if sizeBytes = 8 then Except.ok val
      else Except.error (Err.jsError "invalid register size")

/-- Point update of the register map (`this[fullReg] = v`). -/
def setRegField (s : CPUState) (fullReg : String) (v : Nat) : CPUState :=
  { s with regs := fun x => if x = fullReg then v else s.regs x }

/-- `writeRegister(regName, value, sizeBytes)` (lines 366-400).  The JS
value is a BigInt (possibly negative, hence `Int` here); masking a BigInt
with `& (2^k - 1)` is the Euclidean remainder (`Int` `%`).  A 1-byte write replaces
bits 7:0 (bits 15:8 for AH/CH/DH/BH), a 2-byte write replaces bits 15:0, a
4-byte write stores `value & 0xFFFFFFFF` discarding the old value, an
8-byte write stores the value unchanged (every modelled call site passes a
non-negative value, so `Int.toNat` is exact there). -/
def writeRegister (s : CPUState) (regName : String) (value : Int)
    (sizeBytes : Nat) : Except Err CPUState :=
  match registersMap regName with
  | none => Except.error (Err.jsError "write unknown register name")
  | some fullReg =>
    let currentVal := s.regs fullReg
    if sizeBytes = 1 then
      if regName ∈ ["ah", "ch", "dh", "bh"] then
        -- (currentVal & ~(0xFFn << 8n)) | ((valToWrite & 0xFFn) << 8n)
        Except.ok (setRegField s fullReg
          (currentVal / 2 ^ 16 * 2 ^ 16 + currentVal % 2 ^ 8 +
            (value % (2 ^ 8 : Int)).toNat * 2 ^ 8))
      else
        -- (currentVal & ~0xFFn) | (valToWrite & 0xFFn)
        Except.ok (setRegField s fullReg
          (currentVal / 2 ^ 8 * 2 ^ 8 + (value % (2 ^ 8 : Int)).toNat))
    else if sizeBytes = 2 then
      -- (currentVal & ~0xFFFFn) | (valToWrite & 0xFFFFn)
      Except.ok (setRegField s fullReg
        (currentVal / 2 ^ 16 * 2 ^ 16 + (value % (2 ^ 16 : Int)).toNat))
    else if sizeBytes = 4 then
      -- valToWrite & 0xFFFFFFFFn  (zero-extends into the full register)
      Except.ok (setRegField s fullReg (value % (2 ^ 32 : Int)).toNat)
    else if sizeBytes = 8 then
      -- full overwrite, no masking in the source
      Except.ok (setRegField s fullReg value.toNat)
    else
      Except.error (Err.jsError "invalid register size for writing")

/-! ### Register view enumerations

The four families of sub-register views, read off the `this.registers`
name table: each pair is `(view name, backing 64-bit register)`. -/

/-- The sixteen 32-bit dword views. -/
def dwordViews : List (String × String) :=
  [("eax", "rax"), ("ecx", "rcx"), ("edx", "rdx"), ("ebx", "rbx"),
   ("esp", "rsp"), ("ebp", "rbp"), ("esi", "rsi"), ("edi", "rdi"),
   ("r8d", "r8"), ("r9d", "r9"), ("r10d", "r10"), ("r11d", "r11"),
   ("r12d", "r12"), ("r13d", "r13"), ("r14d", "r14"), ("r15d", "r15")]

/-- The sixteen 16-bit word views. -/
def wordViews : List (String × String) :=
  [("ax", "rax"), ("cx", "rcx"), ("dx", "rdx"), ("bx", "rbx"),
   ("sp", "rsp"), ("bp", "rbp"), ("si", "rsi"), ("di", "rdi"),
   ("r8w", "r8"), ("r9w", "r9"), ("r10w", "r10"), ("r11w", "r11"),
   ("r12w", "r12"), ("r13w", "r13"), ("r14w", "r14"), ("r15w", "r15")]

/-- The sixteen low-byte views. -/
def lowByteViews : List (String × String) :=
  [("al", "rax"), ("cl", "rcx"), ("dl", "rdx"), ("bl", "rbx"),
   ("spl", "rsp"), ("bpl", "rbp"), ("sil", "rsi"), ("dil", "rdi"),
   ("r8b", "r8"), ("r9b", "r9"), ("r10b", "r10"), ("r11b", "r11"),
   ("r12b", "r12"), ("r13b", "r13"), ("r14b", "r14"), ("r15b", "r15")]

/-- The four high-byte views (bits 15:8), available without a REX prefix. -/
def highByteViews : List (String × String) :=
  [("ah", "rax"), ("ch", "rcx"), ("dh", "rdx"), ("bh", "rbx")]

/-- A freshly constructed CPU (the constructor's initial values): all
registers and control registers zero, `IF = 1`, real mode, not halted,
zero-filled memory, empty interrupt queue. -/
def initCPU : CPUState where
  mem := fun _ => 0
  regs := fun _ => 0
  rip := 0
  flags := { cf := 0, zf := 0, sf := 0, of := 0, iflag := 1 }
  halted := false
  mode := "real"
  cr0 := 0
  cr2 := 0
  cr3 := 0
  cr4 := 0
  efer := 0
  idtrBase := 0
  idtrLimit := 0
  gdtrBase := 0
  gdtrLimit := 0
  interruptQueue := []
  operandSizeOverride := false
  addressSizeOverride := false

/-! ## Flags unit (`updateArithmeticFlags`, emcpu.umd.js lines 402-460) -/

/-- `updateArithmeticFlags(result, operand1, operand2, sizeBytes, operation)`.
Arguments are BigInts (the executor passes raw, possibly out-of-range or
negative results), masked here with `& bitMask`, i.e. `% 2^bitWidth` as
Euclidean remainder.  The single-bit tests `(x & signBitMask) !== 0n` are
written `x / 2^(bitWidth-1) % 2 ≠ 0` (the same bit).  Only ZF, SF, CF and
OF are written; IF is untouched. -/
def updateArithmeticFlags (s : CPUState) (result operand1 operand2 : Int)
    (sizeBytes : Nat) (operation : String) : CPUState :=
  let bitWidth := 8 * sizeBytes
  -- bitMask = (1n << bitWidth) - 1n ; masked = x & bitMask
  let maskedResult := (result % ((2 : Int) ^ bitWidth)).toNat
  let maskedOperand1 := (operand1 % ((2 : Int) ^ bitWidth)).toNat
  let maskedOperand2 := (operand2 % ((2 : Int) ^ bitWidth)).toNat
  -- ZF: set iff the masked result is 0
  let zf : Nat := if maskedResult = 0 then 1 else 0
  -- SF: set iff the masked result's top bit is 1
  let sf : Nat := if maskedResult / 2 ^ (bitWidth - 1) % 2 ≠ 0 then 1 else 0
  -- CF: ADD - raw result exceeds the unsigned maximum; SUB - borrow
  let cf : Nat :=
    if operation = "add" then
      if result > (2 : Int) ^ bitWidth - 1 then 1 else 0
    else if operation = "sub" then
      if maskedOperand1 < maskedOperand2 then 1 else 0
    else 0
  -- OF: from the three sign bits s1, s2, sR
  let s1 : Prop := maskedOperand1 / 2 ^ (bitWidth - 1) % 2 ≠ 0
  let s2 : Prop := maskedOperand2 / 2 ^ (bitWidth - 1) % 2 ≠ 0
  let sR : Prop := maskedResult / 2 ^ (bitWidth - 1) % 2 ≠ 0
  let ofl : Nat :=
    if operation = "add" then
      if (s1 ↔ s2) ∧ ¬(s1 ↔ sR) then 1 else 0
    else if operation = "sub" then
      if ¬(s1 ↔ s2) ∧ ¬(s1 ↔ sR) then 1 else 0
    else 0
  { s with flags := { s.flags with zf := zf, sf := sf, cf := cf, of := ofl } }


/-! ## Control-register and page-table-entry bit constants (lines 126-160) -/

def CR0_PE : Nat := 2 ^ 0
def CR0_PG : Nat := 2 ^ 31
def CR4_PAE : Nat := 2 ^ 5
def EFER_LME : Nat := 2 ^ 8
def PTE_PRESENT : Nat := 2 ^ 0
def PTE_READ_WRITE : Nat := 2 ^ 1
def PTE_USER_SUPER : Nat := 2 ^ 2
def PTE_PAGE_SIZE : Nat := 2 ^ 7

/-! ## MMU (`translateVirtualToPhysical`, emcpu.umd.js lines 2437-2536) -/

set_option linter.unusedVariables false in
/-- `translateVirtualToPhysical(virtualAddr, sizeBytes, accessType)`.
Identity in real mode and whenever long-mode paging is not fully armed;
otherwise the 4-level walk.  `x & ~0xFFFn` is written `x / 2^12 * 2^12`,
`(x >> k) & 0x1FFn` is `(x >>> k) &&& (2^9 - 1)`.  The huge-page masks
`0xFFFFFFFC0000000n` / `0x3FFFFFFFfn` / `0xFFFFFFFE00000n` / `0x1FFFFFn`
are kept as literals.  The R/W protection check exists only on the final
4-KiB PTE (line 2524); `PageFault(0)` for non-present entries,
`PageFault(1)` for a write to a read-only 4-KiB page. -/
def translateVirtualToPhysical (s : CPUState) (virtualAddr sizeBytes : Nat)
    (accessType : String) : Except Err Nat :=
  if s.mode = "real" then Except.ok virtualAddr
  else
    let pgBit := s.cr0 &&& CR0_PG ≠ 0
    let paeBit := s.cr4 &&& CR4_PAE ≠ 0
    let lmeBit := s.efer &&& EFER_LME ≠ 0
    if ¬s.mode = "long" ∨ ¬pgBit ∨ ¬paeBit ∨ ¬lmeBit then Except.ok virtualAddr
    else
      let pml4BasePhys := s.cr3 / 2 ^ 12 * 2 ^ 12
      let pml4Index := (virtualAddr >>> 39) &&& (2 ^ 9 - 1)
      let pml4e := memReadBigUint64 s.mem (pml4BasePhys + pml4Index * 8)
      if pml4e &&& PTE_PRESENT = 0 then Except.error (Err.pageFault 0)
      else
        let pdptBasePhys := pml4e / 2 ^ 12 * 2 ^ 12
        let pdptIndex := (virtualAddr >>> 30) &&& (2 ^ 9 - 1)
        let pdpte := memReadBigUint64 s.mem (pdptBasePhys + pdptIndex * 8)
        if pdpte &&& PTE_PRESENT = 0 then Except.error (Err.pageFault 0)
        else if pdpte &&& PTE_PAGE_SIZE ≠ 0 then
          Except.ok ((pdpte &&& 0xFFFFFFFC0000000) ||| (virtualAddr &&& 0x3FFFFFFFF))
        else
          let pdBasePhys := pdpte / 2 ^ 12 * 2 ^ 12
          let pdIndex := (virtualAddr >>> 21) &&& (2 ^ 9 - 1)
          let pde := memReadBigUint64 s.mem (pdBasePhys + pdIndex * 8)
          if pde &&& PTE_PRESENT = 0 then Except.error (Err.pageFault 0)
          else if pde &&& PTE_PAGE_SIZE ≠ 0 then
            Except.ok ((pde &&& 0xFFFFFFFE00000) ||| (virtualAddr &&& 0x1FFFFF))
          else
            let ptBasePhys := pde / 2 ^ 12 * 2 ^ 12
            let ptIndex := (virtualAddr >>> 12) &&& (2 ^ 9 - 1)
            let pte := memReadBigUint64 s.mem (ptBasePhys + ptIndex * 8)
            if pte &&& PTE_PRESENT = 0 then Except.error (Err.pageFault 0)
            else if accessType = "write" ∧ pte &&& PTE_READ_WRITE = 0 then
              Except.error (Err.pageFault 1)
            else
              Except.ok ((pte / 2 ^ 12 * 2 ^ 12) ||| (virtualAddr &&& (2 ^ 12 - 1)))

/-- Decidable equality of `Except` results (used to evaluate the embedding
at concrete inputs). -/
instance {e a : Type} [DecidableEq e] [DecidableEq a] : DecidableEq (Except e a) :=
  fun x y =>
    match x, y with
    | Except.ok u, Except.ok w =>
      if h : u = w then Decidable.isTrue (by rw [h])
      else Decidable.isFalse (by intro hc; cases hc; exact h rfl)
    | Except.error u, Except.error w =>
      if h : u = w then Decidable.isTrue (by rw [h])
      else Decidable.isFalse (by intro hc; cases hc; exact h rfl)
    | Except.ok _, Except.error _ => Decidable.isFalse (by intro hc; cases hc)
    | Except.error _, Except.ok _ => Decidable.isFalse (by intro hc; cases hc)

/-! ## The method monad

`M α` runs a CPU method: it returns either a value or a thrown exception,
together with the state of `this` at that point (a JS `throw` does not roll
back mutations already made). -/

def M (α : Type) : Type := CPUState → Except Err α × CPUState

def M.pure {α : Type} (a : α) : M α := fun s => (Except.ok a, s)

def M.bind {α β : Type} (x : M α) (f : α → M β) : M β := fun s =>
  match x s with
  | (Except.ok a, s') => f a s'
  | (Except.error e, s') => (Except.error e, s')

instance : Monad M where
  pure := M.pure
  bind := M.bind

/-- Read `this`. -/
def getS : M CPUState := fun s => (Except.ok s, s)

/-- Mutate `this`. -/
def modifyS (f : CPUState → CPUState) : M Unit := fun s => (Except.ok (), f s)

/-- `throw e`. -/
def throwE {α : Type} (e : Err) : M α := fun s => (Except.error e, s)

/-- `try x catch (e) handler`: the handler sees the mutations made before
the throw. -/
def M.tryCatch {α : Type} (x : M α) (handler : Err → M α) : M α := fun s =>
  match x s with
  | (Except.error e, s') => handler e s'
  | r => r

/-! ## Virtual memory accessors (lines 2365-2436)

Each translates, then reads/writes physical memory.  The JS bounds check
against `buffer.byteLength` (`MEMORY_ACCESS_VIOLATION`) is omitted: memory
is modelled unbounded (see the header). -/

def readVirtualUint8 (virtualAddr : Nat) : M Nat := fun s =>
  match translateVirtualToPhysical s virtualAddr 1 "read" with
  | Except.ok pa => (Except.ok (memReadUint8 s.mem pa), s)
  | Except.error e => (Except.error e, s)

def readVirtualUint16 (virtualAddr : Nat) : M Nat := fun s =>
  match translateVirtualToPhysical s virtualAddr 2 "read" with
  | Except.ok pa => (Except.ok (memReadUint16 s.mem pa), s)
  | Except.error e => (Except.error e, s)

def readVirtualUint32 (virtualAddr : Nat) : M Nat := fun s =>
  match translateVirtualToPhysical s virtualAddr 4 "read" with
  | Except.ok pa => (Except.ok (memReadUint32 s.mem pa), s)
  | Except.error e => (Except.error e, s)

def readVirtualBigUint64 (virtualAddr : Nat) : M Nat := fun s =>
  match translateVirtualToPhysical s virtualAddr 8 "read" with
  | Except.ok pa => (Except.ok (memReadBigUint64 s.mem pa), s)
  | Except.error e => (Except.error e, s)

def writeVirtualUint8 (virtualAddr v : Nat) : M Unit := fun s =>
  match translateVirtualToPhysical s virtualAddr 1 "write" with
  | Except.ok pa => (Except.ok (), { s with mem := memWriteUint8 s.mem pa v })
  | Except.error e => (Except.error e, s)

def writeVirtualUint16 (virtualAddr v : Nat) : M Unit := fun s =>
  match translateVirtualToPhysical s virtualAddr 2 "write" with
  | Except.ok pa => (Except.ok (), { s with mem := memWriteUint16 s.mem pa v })
  | Except.error e => (Except.error e, s)

def writeVirtualUint32 (virtualAddr v : Nat) : M Unit := fun s =>
  match translateVirtualToPhysical s virtualAddr 4 "write" with
  | Except.ok pa => (Except.ok (), { s with mem := memWriteUint32 s.mem pa v })
  | Except.error e => (Except.error e, s)

def writeVirtualBigUint64 (virtualAddr v : Nat) : M Unit := fun s =>
  match translateVirtualToPhysical s virtualAddr 8 "write" with
  | Except.ok pa => (Except.ok (), { s with mem := memWriteBigUint64 s.mem pa v })
  | Except.error e => (Except.error e, s)

/-- Concrete memory holding the given 64-bit little-endian entries and zero
elsewhere (a helper for building test states). -/
def memOfU64s (entries : List (Nat × Nat)) : Mem :=
  fun a =>
    match entries.find? (fun p => decide (p.1 ≤ a) && decide (a < p.1 + 8)) with
    | some p => p.2 / 256 ^ (a - p.1) % 256
    | none => 0

/-- A long-mode state whose page tables map the whole address space through
a single 1-GiB page that is present but read-only (R/W = 0):
PML4E[0] -> PDPT at 0x2000; PDPTE[0] has P=1, PS=1, R/W=0. -/
def hugePageReadOnly : CPUState :=
  { initCPU with
    mem := memOfU64s [(0x1000, 0x2003), (0x2000, 0x81)]
    mode := "long"
    cr0 := CR0_PE + CR0_PG
    cr3 := 0x1000
    cr4 := CR4_PAE
    efer := EFER_LME }

/-- A long-mode state with a 4-level walk to a present read-only 4-KiB
page: PML4E[0] -> 0x2000, PDPTE[0] -> 0x3000, PDE[0] -> 0x4000,
PTE[0] = 0x1 (present, R/W clear, frame 0). -/
def fourKReadOnly : CPUState :=
  { initCPU with
    mem := memOfU64s [(0x1000, 0x2003), (0x2000, 0x3003), (0x3000, 0x4003), (0x4000, 0x1)]
    mode := "long"
    cr0 := CR0_PE + CR0_PG
    cr3 := 0x1000
    cr4 := CR4_PAE
    efer := EFER_LME }

/-! ## Interrupt delivery (`triggerInterrupt`, emcpu.umd.js lines 2540-2595) -/

/-- `triggerInterrupt(interruptNumber, errorCode = null)`: reads the
16-byte IDT gate at `idtr.base + vector*16`, decodes handler offset,
selector and the present bit, throws a fatal (non-page-fault) error when
the gate is not present, then pushes RFLAGS, selector, RIP, the error code
when one was supplied, and finally the vector number, each as 8 bytes, and
jumps to the handler.  `x & 0xFFFFn` is `x % 2^16`, the present test
`(type_attrs & 0x80n) !== 0n` is `/ 2^7 % 2 ≠ 0`, and the concatenation
`(a << 32) | (b << 16) | c` of disjoint masked fields is written as a
sum. -/
def triggerInterrupt (interruptNumber : Nat) (errorCode : Option Nat) :
    M Unit := do
  let s0 ← getS
  let descriptorAddr := s0.idtrBase + interruptNumber * 16
  let lowSlice ← readVirtualBigUint64 descriptorAddr
  let highSlice ← readVirtualBigUint64 (descriptorAddr + 8)
  let offset15Z0 := lowSlice % 2 ^ 16
  let offset31Z16 := lowSlice >>> 48 % 2 ^ 16
  let offset63Z32 := highSlice % 2 ^ 32
  let handlerAddr := offset63Z32 * 2 ^ 32 + offset31Z16 * 2 ^ 16 + offset15Z0
  let segmentSelector := lowSlice >>> 16 % 2 ^ 16
  let typeAttrs := lowSlice >>> 40 % 2 ^ 8
  if typeAttrs / 2 ^ 7 % 2 = 0 then
    throwE (Err.jsError "interrupt handler not present - double fault")
  else do
    modifyS (fun t => setRegField t "rsp" (t.regs "rsp" - 8))
    let t1 ← getS
    writeVirtualBigUint64 (t1.regs "rsp") (assembleRFlags t1)
    modifyS (fun t => setRegField t "rsp" (t.regs "rsp" - 8))
    let t2 ← getS
    writeVirtualBigUint64 (t2.regs "rsp") segmentSelector
    modifyS (fun t => setRegField t "rsp" (t.regs "rsp" - 8))
    let t3 ← getS
    writeVirtualBigUint64 (t3.regs "rsp") t3.rip
    match errorCode with
    | some ec => do
        modifyS (fun t => setRegField t "rsp" (t.regs "rsp" - 8))
        let t4 ← getS
        writeVirtualBigUint64 (t4.regs "rsp") ec
    | none => pure ()
    modifyS (fun t => setRegField t "rsp" (t.regs "rsp" - 8))
    let t5 ← getS
    writeVirtualBigUint64 (t5.regs "rsp") interruptNumber
    modifyS (fun t => { t with rip := handlerAddr })

/-- A real-mode CPU with IDTR at 0x1000, RSP = 0x8000, RIP = 0x7C05 and a
present gate for vector 14 at 0x10E0 (selector 8, handler 0x2000,
attributes 0x8E). -/
def deliveryState14 : CPUState :=
  { initCPU with
    regs := fun r => if r = "rsp" then 0x8000 else 0
    rip := 0x7C05
    idtrBase := 0x1000
    mem := memOfU64s [(0x10E0, 0x8E0000082000)] }

/-- Like `deliveryState14` but with the present gate at vector 8
(descriptor address 0x1080). -/
def deliveryState8 : CPUState :=
  { initCPU with
    regs := fun r => if r = "rsp" then 0x8000 else 0
    rip := 0x7C05
    idtrBase := 0x1000
    mem := memOfU64s [(0x1080, 0x8E0000082000)] }

/-! ## setupIdentityPaging (`CPU.setupIdentityPaging`, cpu.js lines 53-134,
emcpu.umd.js lines 170-240)

The static method takes the `Memory` object and returns the PML4 base; it
is modelled as `Mem -> ... -> Except Err (Nat x Mem)` carrying the mutated
memory.  `x | P | RW | US` is `x ||| 7`. -/

/-- The inner closure `writeAndVerifyPTE(addr, value, description)`: write
an 8-byte entry, read it back, and throw when the readback differs (with
memory modelled unbounded this happens exactly when `value` overflows
64 bits). -/
def writeAndVerifyPTE (m : Mem) (addr value : Nat) : Except Err Mem :=
  let mw := memWriteBigUint64 m addr value
  let readBack := memReadBigUint64 mw addr
  if readBack ≠ value then
    Except.error (Err.jsError "Page table write verification failed.")
  else Except.ok mw

/-- The zeroing loop (`for (let i = 0n; i < PAGE_SIZE / 8n; i++)`):
iteration `i` writes an 8-byte 0 into entry `i` of each of the four
tables; `k` iterations remain. -/
def zeroTablesAux (p4 pp pd pt : Nat) : Nat → Nat → Mem → Mem
  | _, 0, m => m
  | i, k + 1, m =>
      zeroTablesAux p4 pp pd pt (i + 1) k
        (memWriteBigUint64
          (memWriteBigUint64
            (memWriteBigUint64
              (memWriteBigUint64 m (p4 + i * 8) 0) (pp + i * 8) 0)
            (pd + i * 8) 0)
          (pt + i * 8) 0)

/-- Zero all 512 entries of the four tables. -/
def zeroTables (m : Mem) (p4 pp pd pt : Nat) : Mem :=
  zeroTablesAux p4 pp pd pt 0 512 m

/-- The PTE loop (`for (let i = 0n; i < numPages; i++)`): `k` pages
remain, the current index is `i`.  Every 100th page (and VAs
0x7C00/0x8000) goes through `writeAndVerifyPTE`, the rest are plain
writes; both store `currentPhysicalPage | P | RW | US` at
`ptTablePhys + ((currentVirtualPage >> 12) & 0x1FF) * 8`. -/
def writePTELoop (vs ps pt : Nat) : Nat → Nat → Mem → Except Err Mem
  | _, 0, m => Except.ok m
  | i, k + 1, m =>
      let currentVirtualPage := vs + i * 4096
      let currentPhysicalPage := ps + i * 4096
      let pteValue := currentPhysicalPage ||| 7
      let ptIndex := (currentVirtualPage >>> 12) &&& (2 ^ 9 - 1)
      let pteWriteAddr := pt + ptIndex * 8
      if i % 100 = 0 ∨ currentVirtualPage = 0x7C00 ∨
          currentVirtualPage = 0x8000 then
        match writeAndVerifyPTE m pteWriteAddr pteValue with
        | Except.error e => Except.error e
        | Except.ok mv => writePTELoop vs ps pt (i + 1) k mv
      else
        writePTELoop vs ps pt (i + 1) k
          (memWriteBigUint64 m pteWriteAddr pteValue)

/-- The memory the PTE loop builds (the loop performs exactly these
writes whether or not an iteration goes through the verifying branch);
`writePTELoop_ok` below proves the correspondence. -/
def writePTEMem (vs ps pt : Nat) : Nat → Nat → Mem → Mem
  | _, 0, m => m
  | i, k + 1, m =>
      writePTEMem vs ps pt (i + 1) k
        (memWriteBigUint64 m
          (pt + (((vs + i * 4096) >>> 12) &&& (2 ^ 9 - 1)) * 8)
          ((ps + i * 4096) ||| 7))

/-- `CPU.setupIdentityPaging(memory, virtualStart, physicalStart,
sizeBytes, pageTableBasePhysAddr)`. -/
def setupIdentityPaging (memory : Mem)
    (virtualStart physicalStart sizeBytes pageTableBasePhysAddr : Nat) :
    Except Err (Nat × Mem) :=
  if sizeBytes % 4096 ≠ 0 then
    Except.error (Err.jsError "Mapped size must be a multiple of 4KB.")
  else
    let numPages := sizeBytes / 4096
    let pml4TablePhys := pageTableBasePhysAddr
    let pdptTablePhys := pageTableBasePhysAddr + 4096
    let pdTablePhys := pageTableBasePhysAddr + 2 * 4096
    let ptTablePhys := pageTableBasePhysAddr + 3 * 4096
    let m0 := zeroTables memory pml4TablePhys pdptTablePhys pdTablePhys
      ptTablePhys
    match writeAndVerifyPTE m0 pml4TablePhys (pdptTablePhys ||| 7) with
    | Except.error e => Except.error e
    | Except.ok m1 =>
      match writeAndVerifyPTE m1 pdptTablePhys (pdTablePhys ||| 7) with
      | Except.error e => Except.error e
      | Except.ok m2 =>
        match writeAndVerifyPTE m2 pdTablePhys (ptTablePhys ||| 7) with
        | Except.error e => Except.error e
        | Except.ok m3 =>
          match writePTELoop virtualStart physicalStart ptTablePhys 0
              numPages m3 with
          | Except.error e => Except.error e
          | Except.ok m4 => Except.ok (pml4TablePhys, m4)

/-- `setupIdentityPaging` on empty memory for VA = PA = 0x200000 (2 MiB),
one page, tables at 0x1000: the inputs of the C7 counterexample. -/
def c7CounterSetup : Except Err (Nat × Mem) :=
  setupIdentityPaging (fun _ => 0) 0x200000 0x200000 0x1000 0x1000

def c7CounterMem : Mem :=
  match c7CounterSetup with
  | Except.ok (_, mm) => mm
  | Except.error _ => fun _ => 0

def c7CounterCR3 : Nat :=
  match c7CounterSetup with
  | Except.ok (base, _) => base
  | Except.error _ => 0

/-- Long-mode paging armed with CR3 = the returned PML4 base and the
memory produced by the counterexample setup. -/
def c7CounterState : CPUState :=
  { initCPU with
    mode := "long"
    cr0 := CR0_PE + CR0_PG
    cr4 := CR4_PAE
    efer := EFER_LME
    cr3 := c7CounterCR3
    mem := c7CounterMem }

/-- The memory the counterexample setup produces (what
`setupIdentityPaging_ok` evaluates `c7CounterSetup` to). -/
def c7CounterMemSpec : Mem :=
  writePTEMem 0x200000 0x200000 (0x1000 + 3 * 4096) 0 (0x1000 / 4096)
    (memWriteBigUint64 (memWriteBigUint64 (memWriteBigUint64
      (zeroTables (fun _ => 0) 0x1000 (0x1000 + 4096) (0x1000 + 2 * 4096)
        (0x1000 + 3 * 4096))
      0x1000 ((0x1000 + 4096) ||| 7))
      (0x1000 + 4096) ((0x1000 + 2 * 4096) ||| 7))
      (0x1000 + 2 * 4096) ((0x1000 + 3 * 4096) ||| 7))

/-- The memory `setupIdentityPaging (fun _ => 0) 0x8000 0x8000 0x1000
0x1000` produces (one 4-KiB page at VA = PA = 0x8000, tables at 0x1000);
spelled out so the C7 witness is closed. -/
def c7WitnessMem : Mem :=
  writePTEMem 0x8000 0x8000 (0x1000 + 3 * 4096) 0 (0x1000 / 4096)
    (memWriteBigUint64 (memWriteBigUint64 (memWriteBigUint64
      (zeroTables (fun _ => 0) 0x1000 (0x1000 + 4096) (0x1000 + 2 * 4096)
        (0x1000 + 3 * 4096))
      0x1000 ((0x1000 + 4096) ||| 7))
      (0x1000 + 4096) ((0x1000 + 2 * 4096) ||| 7))
      (0x1000 + 2 * 4096) ((0x1000 + 3 * 4096) ||| 7))

/-- Long-mode paging armed over `c7WitnessMem` with CR3 = 0x1000. -/
def c7WitnessState : CPUState :=
  { initCPU with
    mode := "long"
    cr0 := CR0_PE + CR0_PG
    cr4 := CR4_PAE
    efer := EFER_LME
    cr3 := 0x1000
    mem := c7WitnessMem }

/-! ## Decoder and executor helpers (emcpu.umd.js lines 2129-2330) -/

/-- `setS`: replace `this` wholesale (used when a helper returns a new
state). -/
def setS (t : CPUState) : M Unit := fun _ => (Except.ok (), t)

/-- Lift a pure `Except` computation (a throwing helper) into `M`. -/
def liftE {a : Type} (x : Except Err a) : M a := fun s =>
  match x with
  | Except.ok v => (Except.ok v, s)
  | Except.error e => (Except.error e, s)

/-- `this.readRegister(name, size)` as a method call. -/
def readReg (name : String) (sizeBytes : Nat) : M Nat := do
  let s ← getS
  liftE (readRegister s name sizeBytes)

/-- `this.writeRegister(name, value, size)` as a method call. -/
def writeReg (name : String) (value : Int) (sizeBytes : Nat) : M Unit := do
  let s ← getS
  match writeRegister s name value sizeBytes with
  | Except.ok t => setS t
  | Except.error e => throwE e

/-- `readInstructionByte()` (lines 2129-2141): fetch through the MMU when
CR0.PE is set, raw physical read in real mode; RIP advances after a
successful read. -/
def readInstructionByte : M Nat := do
  let s ← getS
  let byte ← (if s.cr0 &&& CR0_PE ≠ 0 then readVirtualUint8 s.rip
              else pure (memReadUint8 s.mem s.rip))
  modifyS (fun t => { t with rip := t.rip + 1 })
  pure byte

/-- `readInstructionUint16()` (lines 2143-2147). -/
def readInstructionUint16 : M Nat := do
  let lo ← readInstructionByte
  let hi ← readInstructionByte
  pure (hi * 2 ^ 8 + lo)   -- (hi << 8) | lo, disjoint fields

/-- `readInstructionUint32()` (lines 2149-2155). -/
def readInstructionUint32 : M Nat := do
  let b1 ← readInstructionByte
  let b2 ← readInstructionByte
  let b3 ← readInstructionByte
  let b4 ← readInstructionByte
  pure (b4 * 2 ^ 24 + b3 * 2 ^ 16 + b2 * 2 ^ 8 + b1)

/-- The decoded ModR/M byte (lines 2157-2165). -/
structure ModRM : Type where
  mod : Nat
  reg : Nat
  rm : Nat
  raw : Nat
deriving DecidableEq, Repr

/-- `readModRMByte()`. -/
def readModRMByte : M ModRM := do
  let modrm ← readInstructionByte
  pure { mod := (modrm >>> 6) &&& 3, reg := (modrm >>> 3) &&& 7,
         rm := modrm &&& 7, raw := modrm }

def regNames64 : List String :=
  ["rax", "rcx", "rdx", "rbx", "rsp", "rbp", "rsi", "rdi",
   "r8", "r9", "r10", "r11", "r12", "r13", "r14", "r15"]

def regNames32 : List String :=
  ["eax", "ecx", "edx", "ebx", "esp", "ebp", "esi", "edi",
   "r8d", "r9d", "r10d", "r11d", "r12d", "r13d", "r14d", "r15d"]

def regNames16 : List String :=
  ["ax", "cx", "dx", "bx", "sp", "bp", "si", "di",
   "r8w", "r9w", "r10w", "r11w", "r12w", "r13w", "r14w", "r15w"]

def regNames8Low : List String := ["al", "cl", "dl", "bl"]
def regNames8HighNoRex : List String := ["ah", "ch", "dh", "bh"]
def regNames8NewRex : List String := ["spl", "bpl", "sil", "dil"]
def regNames8Extended : List String :=
  ["r8b", "r9b", "r10b", "r11b", "r12b", "r13b", "r14b", "r15b"]

/-- `getRegisterString(regIndex, sizeBytes, hasRexPrefix)`
(lines 2166-2200). -/
def getRegisterString (regIndex sizeBytes : Nat) (hasRexPref : Bool) :
    Except Err String :=
  if 15 < regIndex then Except.error (Err.jsError "invalid register index")
  else if sizeBytes = 1 then
    if 8 ≤ regIndex then Except.ok (regNames8Extended.getD (regIndex - 8) "")
    else if 4 ≤ regIndex then
      (if hasRexPref then Except.ok (regNames8NewRex.getD (regIndex - 4) "")
       else Except.ok (regNames8HighNoRex.getD (regIndex - 4) ""))
    else Except.ok (regNames8Low.getD regIndex "")
  else if sizeBytes = 2 then Except.ok (regNames16.getD regIndex "")
  else if sizeBytes = 4 then Except.ok (regNames32.getD regIndex "")
  else if sizeBytes = 8 then Except.ok (regNames64.getD regIndex "")
  else Except.error (Err.jsError "invalid register size for naming")

/-- `readSignedImmediate(sizeBytes)` (lines 2203-2225): sign-extends 1-, 2-
and 4-byte immediates (BigInt, hence `Int`); the 8-byte form returns the
raw unsigned value `(hi << 32) | lo`. -/
def readSignedImmediate (sizeBytes : Nat) : M Int := do
  if sizeBytes = 1 then do
    let rawValue ← readInstructionByte
    if rawValue &&& 0x80 ≠ 0 then pure ((rawValue : Int) - 0x100)
    else pure (rawValue : Int)
  else if sizeBytes = 2 then do
    let rawValue ← readInstructionUint16
    if rawValue &&& 0x8000 ≠ 0 then pure ((rawValue : Int) - 0x10000)
    else pure (rawValue : Int)
  else if sizeBytes = 4 then do
    let rawValue ← readInstructionUint32
    if rawValue &&& 0x80000000 ≠ 0 then pure ((rawValue : Int) - 0x100000000)
    else pure (rawValue : Int)
  else do
    let lo ← readInstructionUint32
    let hi ← readInstructionUint32
    pure ((hi : Int) * 2 ^ 32 + lo)

/-- A decoded operand: `{type:'reg', name}` or `{type:'mem', address,
sizeBytes}`.  The address is a BigInt (negative displacements can
underflow), hence `Int`. -/
inductive Operand : Type where
  | register (name : String)
  | memory (address : Int) (sizeBytes : Nat)
deriving DecidableEq, Repr

/-- `resolveModRMOperand(modrm, sizeBytes, rex_x, rex_b, hasRexPrefix)`
(lines 2258-2330): register-direct for mod 3; otherwise the 16-bit classic
base table or the 32/64-bit SIB logic.  RIP-relative addressing uses
`this.rip + this.readSignedImmediate(4)` where `this.rip` is read before
the displacement is consumed (source evaluation order).  In the SIB case
with `mod == 0 && base == 5` the bundle omits the base register and reads
no disp32 (unlike the older `cpu/cpu.js` copy). -/
def resolveModRMOperand (modrm : ModRM) (sizeBytes : Nat)
    (rexX rexB : Nat) (hasRexPref : Bool) : M Operand := do
  if modrm.mod = 3 then do
    let rmIndex := modrm.rm + rexB * 8   -- rm + (rex_b << 3)
    let name ← liftE (getRegisterString rmIndex sizeBytes hasRexPref)
    pure (Operand.register name)
  else do
    let s ← getS
    let effectiveAddressSize : Nat :=
      if s.mode = "real" then (if s.addressSizeOverride then 32 else 16)
      else (if s.addressSizeOverride then 16 else 32)
    if effectiveAddressSize = 16 then
      if modrm.mod = 0 ∧ modrm.rm = 6 then do
        let d ← readInstructionUint16
        pure (Operand.memory (d : Int) sizeBytes)
      else do
        -- classic table {BX+SI, BX+DI, BP+SI, BP+DI, SI, DI, BP, BX}
        let bx ← readReg "bx" 2
        let si ← readReg "si" 2
        let di ← readReg "di" 2
        let bp ← readReg "bp" 2
        let base : Nat :=
          if modrm.rm = 0 then bx + si
          else if modrm.rm = 1 then bx + di
          else if modrm.rm = 2 then bp + si
          else if modrm.rm = 3 then bp + di
          else if modrm.rm = 4 then si
          else if modrm.rm = 5 then di
          else if modrm.rm = 6 then bp
          else bx
        let disp : Int ←
          (if modrm.mod = 1 then readSignedImmediate 1
           else if modrm.mod = 2 then readSignedImmediate 2
           else pure 0)
        -- effectiveAddress & 0xFFFFn
        pure (Operand.memory (((base : Int) + disp) % (2 ^ 16 : Int)) sizeBytes)
    else do
      let sibPresent := modrm.rm = 4
      if sibPresent then do
        let sib ← readInstructionByte
        let scale := 2 ^ ((sib >>> 6) &&& 3)   -- 1 << ((sib >>> 6) & 3)
        let indexBits := ((sib >>> 3) &&& 7) + rexX * 8
        let baseBits := (sib &&& 7) + rexB * 8
        let idxPart : Int ←
          (if indexBits ≠ 4 then do
            let nm ← liftE (getRegisterString indexBits 8 true)
            let v ← readReg nm 8
            pure ((v : Int) * scale)
          else pure 0)
        let basePart : Int ←
          (if modrm.mod ≠ 0 ∨ baseBits ≠ 5 then do
            let nm ← liftE (getRegisterString baseBits 8 true)
            let v ← readReg nm 8
            pure (v : Int)
          else pure 0)
        let disp : Int ←
          (if modrm.mod = 1 then readSignedImmediate 1
           else if modrm.mod = 2 then readSignedImmediate 4
           else pure 0)
        pure (Operand.memory (idxPart + basePart + disp) sizeBytes)
      else if modrm.mod = 0 ∧ modrm.rm = 5 then do
        let t ← getS
        let d ← readSignedImmediate 4
        pure (Operand.memory ((t.rip : Int) + d) sizeBytes)
      else do
        let baseRegIndex := modrm.rm + rexB * 8
        let nm ← liftE (getRegisterString baseRegIndex 8 hasRexPref)
        let v ← readReg nm 8
        let disp : Int ←
          (if modrm.mod = 1 then readSignedImmediate 1
           else if modrm.mod = 2 then readSignedImmediate 4
           else pure 0)
        pure (Operand.memory ((v : Int) + disp) sizeBytes)

/-! ## The executor (`step`, emcpu.umd.js lines 462-2128)

The REX fields collected by the prefix loop. -/

structure DecodedPfx : Type where
  rexPref : Nat
  rexW : Nat
  rexR : Nat
  rexX : Nat
  rexB : Nat
deriving DecidableEq, Repr

/-- The prefix loop (lines 489-516): consume 0x66 / 0x67 / REX bytes until
the opcode.  The JS loop is unbounded; `fuel` bounds the model (an x86
instruction is at most 15 bytes, callers pass 16). -/
def readPfxLoop : Nat → DecodedPfx → M (Nat × DecodedPfx)
  | 0, _ => throwE (Err.jsError "prefix loop fuel exhausted - model bound")
  | fuel + 1, p => do
    let byte ← readInstructionByte
    if byte = 0x66 then do
      modifyS (fun t => { t with operandSizeOverride := true })
      readPfxLoop fuel p
    else if byte = 0x67 then do
      modifyS (fun t => { t with addressSizeOverride := true })
      readPfxLoop fuel p
    else if byte &&& 0xF0 = 0x40 then
      readPfxLoop fuel
        { rexPref := byte, rexW := (byte &&& 0x08) >>> 3,
          rexR := (byte &&& 0x04) >>> 2, rexX := (byte &&& 0x02) >>> 1,
          rexB := byte &&& 0x01 }
    else
      pure (byte, p)

/-- The effective default operand size (lines 519-537). -/
def computeDefaultOperandSize (s : CPUState) (rexW : Nat) : Nat :=
  if s.mode = "long" then
    (if rexW ≠ 0 then 8
     else if s.operandSizeOverride then 2
     else 4)
  else if s.mode = "real" then
    (if s.operandSizeOverride then 4 else 2)
  else
    (if s.operandSizeOverride then 2 else 4)

/-- One-byte opcodes that have handlers in the JS cascade which this
embedding does not translate (none of the claims depends on them);
reaching one is a distinguished error so no theorem can silently rely on
their behaviour.  Read off the dispatch conditions of lines 761-2110. -/
def unmodelledOneByte (b : Nat) : Bool :=
  (b = 0x01) || (b = 0x03) || (b = 0x05) ||
  (0x08 ≤ b && b ≤ 0x0D) || (0x20 ≤ b && b ≤ 0x23) ||
  (b = 0x29) || (b = 0x2B) || (b = 0x31) || (b = 0x33) ||
  (0x38 ≤ b && b ≤ 0x3D) || (b = 0x72) || (b = 0x74) || (b = 0x75) ||
  (b = 0x7C) || (b = 0x81) || (b = 0x83) || (b = 0x84) || (b = 0x85) ||
  (0x88 ≤ b && b ≤ 0x8B) || (b = 0x8D) || (b = 0x8E) ||
  (b = 0xA8) || (b = 0xA9) || (b = 0xAC) ||
  (0xB0 ≤ b && b ≤ 0xBF) || (b = 0xC0) || (b = 0xC1) || (b = 0xC2) ||
  (b = 0xC3) || (b = 0xC6) || (b = 0xC7) || (b = 0xCF) ||
  (b = 0xE4) || (b = 0xE6) || (b = 0xE8) || (b = 0xEA) || (b = 0xEB) ||
  (b = 0xEC) || (b = 0xEE) || (b = 0xFA) || (b = 0xFB) ||
  (b = 0xFE) || (b = 0xFF)

/-- Two-byte (0x0F-prefixed) opcodes with untranslated handlers
(lines 553-758): 0F 20/22 (MOV CR), 0F 30/32 (WRMSR/RDMSR), 0F 84/85
(Jcc rel32), 0F B6/B7 (MOVZX), 0F 01 (LGDT/LIDT). -/
def unmodelledTwoByte (b : Nat) : Bool :=
  (b = 0x20) || (b = 0x22) || (b = 0x30) || (b = 0x32) ||
  (b = 0x84) || (b = 0x85) || (b = 0xB6) || (b = 0xB7) || (b = 0x01)

set_option linter.unusedVariables false in
/-- The try-block of `step`: prefix loop, operand-size computation, then
the opcode dispatch.  Translated handlers: NOP (0x90), HLT (0xF4,
sets `halted`), PUSH reg (0x50-0x57, operand-size aware: 8 bytes only in
long mode, lines 1534-1558), POP reg (0x58-0x5F, symmetric,
lines 1587-1609), and POP r/m (0x8F /0, lines 1610-1637) which preserves
the source's defect: it adds the operand size to RSP and then evaluates
`this.writeRegister(rmOperand.name, value, sizeBytes)` where `value` is
declared only below that line, so the handler always throws a
`ReferenceError` after having bumped RSP.  An unknown opcode falls through
the cascade and returns `false` with RIP already advanced. -/
def stepBody (currentRIPBeforeFetch : Nat) : M Bool := do
  let (opcode0, p) ←
    readPfxLoop 16 { rexPref := 0, rexW := 0, rexR := 0, rexX := 0, rexB := 0 }
  let s ← getS
  let defaultOperandSize := computeDefaultOperandSize s p.rexW
  if opcode0 = 0x0F then do
    let opcode ← readInstructionByte
    if unmodelledTwoByte opcode then
      throwE (Err.jsError "two-byte opcode handler not modelled")
    else
      pure false
  else
    let opcode := opcode0
    if opcode = 0x90 then
      pure true
    else if opcode = 0xF4 then do
      modifyS (fun t => { t with halted := true })
      pure true
    else if 0x50 ≤ opcode ∧ opcode ≤ 0x57 then do
      let t0 ← getS
      let sizeBytes := if t0.mode = "long" then 8 else defaultOperandSize
      let regIdx := (opcode - 0x50) + p.rexB * 8
      let regName ← liftE (getRegisterString regIdx 8 (p.rexPref ≠ 0))
      let value ← readReg regName sizeBytes
      modifyS (fun t => setRegField t "rsp" (t.regs "rsp" - sizeBytes))
      let t1 ← getS
      (if sizeBytes = 2 then writeVirtualUint16 (t1.regs "rsp") value
       else if sizeBytes = 4 then writeVirtualUint32 (t1.regs "rsp") value
       else writeVirtualBigUint64 (t1.regs "rsp") value)
      pure true
    else if 0x58 ≤ opcode ∧ opcode ≤ 0x5F then do
      let t0 ← getS
      let sizeBytes := if t0.mode = "long" then 8 else defaultOperandSize
      let regIdx := (opcode - 0x58) + p.rexB * 8
      let regName ← liftE (getRegisterString regIdx sizeBytes (p.rexPref ≠ 0))
      let value ←
        (if sizeBytes = 2 then readVirtualUint16 (t0.regs "rsp")
         else if sizeBytes = 4 then readVirtualUint32 (t0.regs "rsp")
         else readVirtualBigUint64 (t0.regs "rsp"))
      writeReg regName (value : Int) sizeBytes
      modifyS (fun t => setRegField t "rsp" (t.regs "rsp" + sizeBytes))
      pure true
    else if opcode = 0x8F then do
      let modrm ← readModRMByte
      if modrm.reg = 0 then do
        let sizeBytes := defaultOperandSize
        let _rmOperand ← resolveModRMOperand modrm sizeBytes p.rexX p.rexB
          (p.rexPref ≠ 0)
        modifyS (fun t => setRegField t "rsp" (t.regs "rsp" + sizeBytes))
        throwE (Err.jsError "ReferenceError: value is not initialized")
      else
        pure false
    else if unmodelledOneByte opcode then
      throwE (Err.jsError "opcode handler not modelled")
    else
      pure false

/-- `step()` (lines 462-2128): clear the per-step override fields, snapshot
RIP, deliver one queued interrupt when IF is set (clearing `halted`), idle
when halted, and otherwise run the try-block; a `PageFaultException`
escaping the body restores RIP to the snapshot and delivers vector 14 with
the fault's error code (then `return true`), every other exception
propagates out of `step`. -/
def step : M Bool := do
  modifyS (fun t =>
    { t with operandSizeOverride := false, addressSizeOverride := false })
  let s0 ← getS
  let currentRIPBeforeFetch := s0.rip
  (if s0.flags.iflag ≠ 0 ∧ s0.interruptQueue ≠ [] then
    (match s0.interruptQueue with
     | n :: rest => do
        setS { s0 with halted := false, interruptQueue := rest }
        triggerInterrupt n none
     | [] => pure ())
  else pure ())
  let s1 ← getS
  if s1.halted then
    pure true
  else
    M.tryCatch (stepBody currentRIPBeforeFetch)
      (fun e =>
        match e with
        | Err.pageFault code => do
            modifyS (fun t => { t with rip := currentRIPBeforeFetch })
            triggerInterrupt 14 (some code)
            pure true
        | e' => throwE e')

/-! ### Concrete machine states for the executor claims -/

/-- Long mode with the first 2 MiB identity-mapped by a single 2-MiB page
(PML4 at 0x1000, PDPT at 0x2000, PD[0] = 0x83) and RIP at the unmapped
address 0x200000, so the next fetch page-faults; the IDT at 0x1200 has a
present gate for vector 14 with handler 0x3000; RSP = 0x8000; IF clear. -/
def pfFetchState : CPUState :=
  { initCPU with
    mem := memOfU64s [(0x1000, 0x2003), (0x2000, 0x3003), (0x3000, 0x83),
      (0x12E0, 0x8E0000083000)]
    mode := "long"
    cr0 := CR0_PE + CR0_PG
    cr3 := 0x1000
    cr4 := CR4_PAE
    efer := EFER_LME
    rip := 0x200000
    idtrBase := 0x1200
    regs := fun r => if r = "rsp" then 0x8000 else 0
    flags := { cf := 0, zf := 0, sf := 0, of := 0, iflag := 0 } }

/-- A halted real-mode CPU with IF = 1 and vector 32 pending; the IDT at
0x1000 has a present gate for vector 32 with handler 0x2000, where a NOP
(0x90) lies; RSP = 0x8000. -/
def haltedPendingState : CPUState :=
  { initCPU with
    mem := memOfU64s [(0x1200, 0x8E0000082000), (0x2000, 0x90)]
    halted := true
    idtrBase := 0x1000
    rip := 0x7C00
    regs := fun r => if r = "rsp" then 0x8000 else 0
    interruptQueue := [32] }

/-- A real-mode CPU about to execute the single byte `b` at 0x7C00. -/
def opcodeProbeState (b : Nat) : CPUState :=
  { initCPU with
    rip := 0x7C00
    mem := memOfU64s [(0x7C00, b)] }

/-- True exactly for the one-byte opcodes that fall through the whole JS
dispatch cascade (no handler at all): not a prefix, not 0x0F, and not one
of the handled opcodes. -/
def unknownOneByte (b : Nat) : Bool :=
  !(b = 0x66 || b = 0x67 || (0x40 ≤ b && b ≤ 0x4F) || b = 0x0F ||
    b = 0x90 || b = 0xF4 || (0x50 ≤ b && b ≤ 0x5F) || b = 0x8F ||
    unmodelledOneByte b)

/-- Real mode, bytes `8F C0` (POP r/m with mod=3, reg=0, rm=0) at 0x7C00,
RSP = 0x8000. -/
def popRmState : CPUState :=
  { initCPU with
    rip := 0x7C00
    mem := memOfU64s [(0x7C00, 0xC08F)]
    regs := fun r => if r = "rsp" then 0x8000 else 0 }

/-- Real mode, PUSH RAX (0x50) at 0x7C00, RAX = 0x1234, RSP = 0x8000. -/
def realPushState : CPUState :=
  { initCPU with
    rip := 0x7C00
    mem := memOfU64s [(0x7C00, 0x50)]
    regs := fun r => if r = "rsp" then 0x8000 else if r = "rax" then 0x1234 else 0 }

/-- Long mode (2-MiB identity page as in `pfFetchState`), PUSH RAX at
0x7C00 with a 64-bit RAX value, RSP = 0x8000. -/
def longPushState : CPUState :=
  { initCPU with
    mem := memOfU64s [(0x1000, 0x2003), (0x2000, 0x3003), (0x3000, 0x83),
      (0x7C00, 0x50)]
    mode := "long"
    cr0 := CR0_PE + CR0_PG
    cr3 := 0x1000
    cr4 := CR4_PAE
    efer := EFER_LME
    rip := 0x7C00
    regs := fun r => if r = "rsp" then 0x8000
      else if r = "rax" then 0xDEADBEEFCAFEBABE else 0 }

/-- Like `longPushState` but with bytes `66 50` (operand-size override
before PUSH RAX). -/
def longPush66State : CPUState :=
  { longPushState with mem := memOfU64s [(0x1000, 0x2003), (0x2000, 0x3003),
      (0x3000, 0x83), (0x7C00, 0x5066)] }

/-- Long mode, POP RAX (0x58) at 0x7C00 with 0x1122334455667788 on the
stack at RSP = 0x9000 (inside the identity-mapped 2 MiB). -/
def longPopState : CPUState :=
  { initCPU with
    mem := memOfU64s [(0x1000, 0x2003), (0x2000, 0x3003), (0x3000, 0x83),
      (0x7C00, 0x58), (0x9000, 0x1122334455667788)]
    mode := "long"
    cr0 := CR0_PE + CR0_PG
    cr3 := 0x1000
    cr4 := CR4_PAE
    efer := EFER_LME
    rip := 0x7C00
    regs := fun r => if r = "rsp" then 0x9000 else 0 }

/-- The state `step` hands to `triggerInterrupt` after dequeuing a pending
vector: per-step overrides cleared, `halted` cleared, the queue popped. -/
def dequeuedState (s : CPUState) (rest : List Nat) : CPUState :=
  { s with
    operandSizeOverride := false
    addressSizeOverride := false
    halted := false
    interruptQueue := rest }

/-- The state on which `step`'s page-fault recovery runs after the faulting
fetch of `pfFetchState` (overrides cleared, RIP restored to the snapshot). -/
def pfRecoveryTarget : CPUState :=
  { pfFetchState with
    operandSizeOverride := false
    addressSizeOverride := false
    rip := pfFetchState.rip }

end EmCPU

namespace EmCPU

/-! ## Theorems -/

/-! ### Little-endian memory lemmas -/

theorem writeBytesLE_get_out (v : Nat) :
    ∀ (k : Nat) (m : Mem) (a x : Nat), (x < a ∨ a + k ≤ x) →
      writeBytesLE m a v k x = m x := by
  intro k
  induction k generalizing v with
  | zero => intro m a x _; rfl
  | succ n ih =>
    intro m a x hx
    show writeBytesLE (memWriteUint8 m a v) (a + 1) (v / 256) n x = m x
    rw [ih (v / 256) (memWriteUint8 m a v) (a + 1) x (by omega)]
    unfold memWriteUint8
    rw [if_neg (by omega)]

theorem readBytesLE_congr (m m' : Mem) (b : Nat) :
    ∀ (n : Nat), (∀ x, b ≤ x → x < b + n → m x = m' x) →
      readBytesLE m b n = readBytesLE m' b n := by
  intro n
  induction n generalizing b with
  | zero => intro _; rfl
  | succ k ih =>
    intro h
    show m b % 256 + 256 * readBytesLE m (b + 1) k =
      m' b % 256 + 256 * readBytesLE m' (b + 1) k
    rw [h b (by omega) (by omega), ih (b + 1) (fun x h1 h2 => h x (by omega) (by omega))]

theorem readBytesLE_writeBytesLE_disjoint (m : Mem) (a v b k n : Nat)
    (h : a + k ≤ b ∨ b + n ≤ a) :
    readBytesLE (writeBytesLE m a v k) b n = readBytesLE m b n := by
  apply readBytesLE_congr
  intro x hx1 hx2
  exact writeBytesLE_get_out v k m a x (by omega)

theorem readBytesLE_writeBytesLE_same :
    ∀ (n : Nat) (m : Mem) (a v : Nat),
      readBytesLE (writeBytesLE m a v n) a n = v % 256 ^ n := by
  intro n
  induction n with
  | zero => intro m a v; simp [readBytesLE, writeBytesLE, Nat.mod_one]
  | succ k ih =>
    intro m a v
    show readBytesLE (writeBytesLE (memWriteUint8 m a v) (a + 1) (v / 256) k) a (k + 1)
      = v % 256 ^ (k + 1)
    have hbyte : writeBytesLE (memWriteUint8 m a v) (a + 1) (v / 256) k a = v % 256 := by
      rw [writeBytesLE_get_out _ k _ (a + 1) a (by omega)]
      unfold memWriteUint8
      rw [if_pos rfl]
    show writeBytesLE (memWriteUint8 m a v) (a + 1) (v / 256) k a % 256 +
        256 * readBytesLE (writeBytesLE (memWriteUint8 m a v) (a + 1) (v / 256) k) (a + 1) k
      = v % 256 ^ (k + 1)
    rw [hbyte, ih (memWriteUint8 m a v) (a + 1) (v / 256), Nat.mod_mod_of_dvd v (by norm_num),
      pow_succ, Nat.mul_comm (256 ^ k) 256, Nat.mod_mul]

/-- 64-bit read-back of a 64-bit write at the same address. -/
theorem memReadBigUint64_write_same (m : Mem) (a v : Nat) :
    memReadBigUint64 (memWriteBigUint64 m a v) a = v % 2 ^ 64 := by
  unfold memReadBigUint64 memWriteBigUint64
  rw [readBytesLE_writeBytesLE_same]
  norm_num

/-- 64-bit read-back at an address equal to the written one. -/
theorem memReadBigUint64_write_same2 (m : Mem) (a v b : Nat) (h : b = a) :
    memReadBigUint64 (memWriteBigUint64 m a v) b = v % 2 ^ 64 := by
  rw [h, memReadBigUint64_write_same]

/-- A 64-bit write at a disjoint address does not change a 64-bit read. -/
theorem memReadBigUint64_write_disjoint (m : Mem) (a v b : Nat)
    (h : a + 8 ≤ b ∨ b + 8 ≤ a) :
    memReadBigUint64 (memWriteBigUint64 m a v) b = memReadBigUint64 m b := by
  unfold memReadBigUint64 memWriteBigUint64
  exact readBytesLE_writeBytesLE_disjoint m a v b 8 8 h


/-! ### Running the method monad -/

theorem M_bind_eq {a b : Type} (x : M a) (f : a → M b) (s : CPUState) :
    (x >>= f) s = match x s with
      | (Except.ok v, s') => f v s'
      | (Except.error e, s') => (Except.error e, s') := rfl

theorem getS_run (s : CPUState) : getS s = (Except.ok s, s) := rfl

theorem modifyS_run (f : CPUState → CPUState) (s : CPUState) :
    modifyS f s = (Except.ok (), f s) := rfl

theorem pure_run {a : Type} (v : a) (s : CPUState) :
    (pure v : M a) s = (Except.ok v, s) := rfl

theorem throwE_run {a : Type} (e : Err) (s : CPUState) :
    (throwE e : M a) s = (Except.error e, s) := rfl

theorem translate_real (s : CPUState) (va n : Nat) (t : String)
    (h : s.mode = "real") :
    translateVirtualToPhysical s va n t = Except.ok va := by
  unfold translateVirtualToPhysical
  rw [if_pos h]

theorem readVirtualBigUint64_real (a : Nat) (s : CPUState)
    (h : s.mode = "real") :
    readVirtualBigUint64 a s = (Except.ok (memReadBigUint64 s.mem a), s) := by
  unfold readVirtualBigUint64
  rw [translate_real s a 8 "read" h]

theorem writeVirtualBigUint64_real (a v : Nat) (s : CPUState)
    (h : s.mode = "real") :
    writeVirtualBigUint64 a v s =
      (Except.ok (), { s with mem := memWriteBigUint64 s.mem a v }) := by
  unfold writeVirtualBigUint64
  rw [translate_real s a 8 "write" h]

theorem setRegField_mode (s : CPUState) (f : String) (v : Nat) :
    (setRegField s f v).mode = s.mode := rfl

theorem setRegField_mem (s : CPUState) (f : String) (v : Nat) :
    (setRegField s f v).mem = s.mem := rfl

theorem setRegField_rip (s : CPUState) (f : String) (v : Nat) :
    (setRegField s f v).rip = s.rip := rfl

theorem setRegField_idtrBase (s : CPUState) (f : String) (v : Nat) :
    (setRegField s f v).idtrBase = s.idtrBase := rfl

theorem setRegField_flags (s : CPUState) (f : String) (v : Nat) :
    (setRegField s f v).flags = s.flags := rfl

theorem assembleRFlags_lt (s : CPUState) : assembleRFlags s < 2 ^ 64 := by
  unfold assembleRFlags
  split_ifs <;> norm_num

theorem assembleRFlags_setRegField (s : CPUState) (f : String) (v : Nat) :
    assembleRFlags (setRegField s f v) = assembleRFlags s := rfl


/-! ### Generic register-file lemmas -/

theorem setRegField_same (s : CPUState) (f : String) (v : Nat) :
    (setRegField s f v).regs f = v := by
  simp [setRegField]

theorem writeRegister_four (s : CPUState) (v : Int) (name full : String)
    (h : registersMap name = some full) :
    writeRegister s name v 4 =
      Except.ok (setRegField s full ((v % (2 ^ 32 : Int)).toNat)) := by
  unfold writeRegister
  rw [h]
  norm_num

theorem writeRegister_two (s : CPUState) (v : Int) (name full : String)
    (h : registersMap name = some full) :
    writeRegister s name v 2 =
      Except.ok (setRegField s full
        (s.regs full / 2 ^ 16 * 2 ^ 16 + (v % (2 ^ 16 : Int)).toNat)) := by
  unfold writeRegister
  rw [h]
  norm_num

theorem writeRegister_one_low (s : CPUState) (v : Int) (name full : String)
    (h : registersMap name = some full)
    (hn : name ∉ (["ah", "ch", "dh", "bh"] : List String)) :
    writeRegister s name v 1 =
      Except.ok (setRegField s full
        (s.regs full / 2 ^ 8 * 2 ^ 8 + (v % (2 ^ 8 : Int)).toNat)) := by
  unfold writeRegister
  rw [h]
  simp [hn]

theorem writeRegister_one_high (s : CPUState) (v : Int) (name full : String)
    (h : registersMap name = some full)
    (hn : name ∈ (["ah", "ch", "dh", "bh"] : List String)) :
    writeRegister s name v 1 =
      Except.ok (setRegField s full
        (s.regs full / 2 ^ 16 * 2 ^ 16 + s.regs full % 2 ^ 8 +
          (v % (2 ^ 8 : Int)).toNat * 2 ^ 8)) := by
  unfold writeRegister
  rw [h]
  simp [hn]

theorem readRegister_eight (s : CPUState) (full : String)
    (h0 : ¬(full = "rflags" ∨ full = "eflags"))
    (h : registersMap full = some full) :
    readRegister s full 8 = Except.ok (s.regs full) := by
  unfold readRegister
  rw [if_neg h0, h]
  norm_num

/-- A dword-view write zero-extends into the backing 64-bit register. -/
theorem dword_write_zero_extends (s : CPUState) (v : Nat) (name full : String)
    (h : registersMap name = some full)
    (h0 : ¬(full = "rflags" ∨ full = "eflags"))
    (hf : registersMap full = some full) :
    ∃ s', writeRegister s name (v : Int) 4 = Except.ok s' ∧
      readRegister s' full 8 = Except.ok (v % 2 ^ 32) := by
  refine ⟨_, writeRegister_four s v name full h, ?_⟩
  rw [readRegister_eight _ full h0 hf, setRegField_same]
  have hv : (((v : Nat) : Int) % (2 ^ 32 : Int)).toNat = v % 2 ^ 32 := by omega
  rw [hv]

/-- A word-view write touches only bits 15:0 of the backing register. -/
theorem word_write_preserves (s : CPUState) (v : Nat) (name full : String)
    (h : registersMap name = some full) :
    ∃ s', writeRegister s name (v : Int) 2 = Except.ok s' ∧
      s'.regs full % 2 ^ 16 = v % 2 ^ 16 ∧
      s'.regs full / 2 ^ 16 = s.regs full / 2 ^ 16 := by
  refine ⟨_, writeRegister_two s v name full h, ?_⟩
  rw [setRegField_same]
  constructor <;> omega

/-- A low-byte write touches only bits 7:0 of the backing register. -/
theorem low_byte_write_preserves (s : CPUState) (v : Nat) (name full : String)
    (h : registersMap name = some full)
    (hn : name ∉ (["ah", "ch", "dh", "bh"] : List String)) :
    ∃ s', writeRegister s name (v : Int) 1 = Except.ok s' ∧
      s'.regs full % 2 ^ 8 = v % 2 ^ 8 ∧
      s'.regs full / 2 ^ 8 = s.regs full / 2 ^ 8 := by
  refine ⟨_, writeRegister_one_low s v name full h hn, ?_⟩
  rw [setRegField_same]
  constructor <;> omega

/-- A high-byte write (AH/CH/DH/BH) replaces exactly bits 15:8. -/
theorem high_byte_write_preserves (s : CPUState) (v : Nat) (name full : String)
    (h : registersMap name = some full)
    (hn : name ∈ (["ah", "ch", "dh", "bh"] : List String)) :
    ∃ s', writeRegister s name (v : Int) 1 = Except.ok s' ∧
      s'.regs full / 2 ^ 8 % 2 ^ 8 = v % 2 ^ 8 ∧
      s'.regs full % 2 ^ 8 = s.regs full % 2 ^ 8 ∧
      s'.regs full / 2 ^ 16 = s.regs full / 2 ^ 16 := by
  refine ⟨_, writeRegister_one_high s v name full h hn, ?_⟩
  rw [setRegField_same]
  refine ⟨?_, ?_, ?_⟩ <;> omega

/-- C1: for every general-purpose register, writing 4 bytes to the dword
view sets the full 64-bit register to `v & 0xFFFFFFFF` (bits 63:32 become
0); writing 2 bytes (word view) or 1 byte (low-byte view) replaces only
the low bits and leaves all higher bits of the 64-bit register unchanged;
writing 1 byte to AH/CH/DH/BH replaces exactly bits 15:8. -/
theorem claim1_register_aliasing (s : CPUState) (v : Nat) :
    (∀ p ∈ dwordViews, ∃ s', writeRegister s p.1 (v : Int) 4 = Except.ok s' ∧
      readRegister s' p.2 8 = Except.ok (v % 2 ^ 32)) ∧
    (∀ p ∈ wordViews, ∃ s', writeRegister s p.1 (v : Int) 2 = Except.ok s' ∧
      s'.regs p.2 % 2 ^ 16 = v % 2 ^ 16 ∧
      s'.regs p.2 / 2 ^ 16 = s.regs p.2 / 2 ^ 16) ∧
    (∀ p ∈ lowByteViews, ∃ s', writeRegister s p.1 (v : Int) 1 = Except.ok s' ∧
      s'.regs p.2 % 2 ^ 8 = v % 2 ^ 8 ∧
      s'.regs p.2 / 2 ^ 8 = s.regs p.2 / 2 ^ 8) ∧
    (∀ p ∈ highByteViews, ∃ s', writeRegister s p.1 (v : Int) 1 = Except.ok s' ∧
      s'.regs p.2 / 2 ^ 8 % 2 ^ 8 = v % 2 ^ 8 ∧
      s'.regs p.2 % 2 ^ 8 = s.regs p.2 % 2 ^ 8 ∧
      s'.regs p.2 / 2 ^ 16 = s.regs p.2 / 2 ^ 16) := by
  refine ⟨?_, ?_, ?_, ?_⟩
  · intro p hp
    simp only [dwordViews, List.mem_cons, List.not_mem_nil, or_false] at hp
    rcases hp with rfl|rfl|rfl|rfl|rfl|rfl|rfl|rfl|rfl|rfl|rfl|rfl|rfl|rfl|rfl|rfl <;>
      exact dword_write_zero_extends s v _ _ rfl (by simp) rfl
  · intro p hp
    simp only [wordViews, List.mem_cons, List.not_mem_nil, or_false] at hp
    rcases hp with rfl|rfl|rfl|rfl|rfl|rfl|rfl|rfl|rfl|rfl|rfl|rfl|rfl|rfl|rfl|rfl <;>
      exact word_write_preserves s v _ _ rfl
  · intro p hp
    simp only [lowByteViews, List.mem_cons, List.not_mem_nil, or_false] at hp
    rcases hp with rfl|rfl|rfl|rfl|rfl|rfl|rfl|rfl|rfl|rfl|rfl|rfl|rfl|rfl|rfl|rfl <;>
      exact low_byte_write_preserves s v _ _ rfl (by decide)
  · intro p hp
    simp only [highByteViews, List.mem_cons, List.not_mem_nil, or_false] at hp
    rcases hp with rfl|rfl|rfl|rfl <;>
      exact high_byte_write_preserves s v _ _ rfl (by decide)

/-- Witness for C1 at a concrete input: writing `0x1_2345_6789` to EAX on a
fresh CPU yields RAX = `0x2345_6789`. -/
theorem claim1_register_aliasing_witness :
    ∃ s', writeRegister initCPU "eax" ((0x123456789 : Nat) : Int) 4 = Except.ok s' ∧
      readRegister s' "rax" 8 = Except.ok (0x123456789 % 2 ^ 32) := by
  exact (claim1_register_aliasing initCPU 0x123456789).1 ("eax", "rax") (by decide)

set_option maxHeartbeats 1000000 in
/-- C2: for every operand size w in bytes and in-range operands, the ADD and
SUB flag updates set ZF iff the width-masked result is zero, SF to the
masked result's most significant bit, CF for ADD iff the unsigned sum
exceeds `2^(8w) - 1` and for SUB iff `a < b` unsigned, and OF per the sign
rules; in particular the 64-bit ADD of `0x7FFF_FFFF_FFFF_FFFF` and `1`
yields masked result `0x8000_0000_0000_0000` with OF=1, SF=1, CF=0, ZF=0. -/
theorem claim2_flags (s : CPUState) :
    (∀ w ∈ ([1, 2, 4, 8] : List Nat), ∀ a b : Nat,
      a < 2 ^ (8 * w) → b < 2 ^ (8 * w) →
      ((updateArithmeticFlags s ((a : Int) + b) a b w "add").flags.zf
          = (if (a + b) % 2 ^ (8 * w) = 0 then 1 else 0) ∧
       (updateArithmeticFlags s ((a : Int) + b) a b w "add").flags.sf
          = (if 2 ^ (8 * w - 1) ≤ (a + b) % 2 ^ (8 * w) then 1 else 0) ∧
       (updateArithmeticFlags s ((a : Int) + b) a b w "add").flags.cf
          = (if 2 ^ (8 * w) ≤ a + b then 1 else 0) ∧
       (updateArithmeticFlags s ((a : Int) + b) a b w "add").flags.of
          = (if ((2 ^ (8 * w - 1) ≤ a ↔ 2 ^ (8 * w - 1) ≤ b) ∧
                ¬(2 ^ (8 * w - 1) ≤ a ↔ 2 ^ (8 * w - 1) ≤ (a + b) % 2 ^ (8 * w)))
             then 1 else 0)) ∧
      ((updateArithmeticFlags s ((a : Int) - b) a b w "sub").flags.zf
          = (if a = b then 1 else 0) ∧
       (updateArithmeticFlags s ((a : Int) - b) a b w "sub").flags.sf
          = (if 2 ^ (8 * w - 1) ≤ (a + (2 ^ (8 * w) - b)) % 2 ^ (8 * w) then 1 else 0) ∧
       (updateArithmeticFlags s ((a : Int) - b) a b w "sub").flags.cf
          = (if a < b then 1 else 0) ∧
       (updateArithmeticFlags s ((a : Int) - b) a b w "sub").flags.of
          = (if (¬(2 ^ (8 * w - 1) ≤ a ↔ 2 ^ (8 * w - 1) ≤ b) ∧
                ¬(2 ^ (8 * w - 1) ≤ a ↔ 2 ^ (8 * w - 1) ≤ (a + (2 ^ (8 * w) - b)) % 2 ^ (8 * w)))
             then 1 else 0))) ∧
    ((updateArithmeticFlags s ((0x7FFFFFFFFFFFFFFF : Int) + 1)
        0x7FFFFFFFFFFFFFFF 1 8 "add").flags.of = 1 ∧
     (updateArithmeticFlags s ((0x7FFFFFFFFFFFFFFF : Int) + 1)
        0x7FFFFFFFFFFFFFFF 1 8 "add").flags.sf = 1 ∧
     (updateArithmeticFlags s ((0x7FFFFFFFFFFFFFFF : Int) + 1)
        0x7FFFFFFFFFFFFFFF 1 8 "add").flags.cf = 0 ∧
     (updateArithmeticFlags s ((0x7FFFFFFFFFFFFFFF : Int) + 1)
        0x7FFFFFFFFFFFFFFF 1 8 "add").flags.zf = 0 ∧
     (((0x7FFFFFFFFFFFFFFF : Int) + 1) % (2 : Int) ^ 64).toNat
        = 0x8000000000000000) := by
  constructor
  · intro w hw a b ha hb
    simp only [List.mem_cons, List.not_mem_nil, or_false] at hw
    rcases hw with rfl|rfl|rfl|rfl <;>
      · refine ⟨⟨?_, ?_, ?_, ?_⟩, ⟨?_, ?_, ?_, ?_⟩⟩ <;>
        · simp only [updateArithmeticFlags, String.reduceEq, reduceIte]
          exact if_congr (by omega) rfl rfl
  · refine ⟨?_, ?_, ?_, ?_, by omega⟩ <;>
      · simp only [updateArithmeticFlags, String.reduceEq]
        norm_num
        try omega

/-- Witness for C2 at a concrete input: 8-bit ADD of 250 and 10 on a fresh
CPU sets ZF per the masked result and CF per the unsigned-overflow rule. -/
theorem claim2_flags_witness :
    (updateArithmeticFlags initCPU ((250 : Int) + 10) 250 10 1 "add").flags.zf
      = (if (250 + 10) % 2 ^ (8 * 1) = 0 then 1 else 0) ∧
    (updateArithmeticFlags initCPU ((250 : Int) + 10) 250 10 1 "add").flags.cf
      = (if 2 ^ (8 * 1) ≤ 250 + 10 then 1 else 0) := by
  have h := ((claim2_flags initCPU).1 1 (by decide) 250 10 (by decide) (by decide)).1
  exact ⟨h.1, h.2.2.1⟩

/-- C3 counterexample: a write through a present 1-GiB leaf whose R/W bit is
clear is translated successfully (no `PageFault(1)`), so the claim fails
for huge-page leaves. -/
theorem claim3_counterexample :
    translateVirtualToPhysical hugePageReadOnly 0x123 1 "write" = Except.ok 0x123 ∧
    translateVirtualToPhysical hugePageReadOnly 0x123 1 "write" ≠
      Except.error (Err.pageFault 1) ∧
    memReadBigUint64 hugePageReadOnly.mem 0x2000 &&& PTE_PRESENT ≠ 0 ∧
    memReadBigUint64 hugePageReadOnly.mem 0x2000 &&& PTE_PAGE_SIZE ≠ 0 ∧
    memReadBigUint64 hugePageReadOnly.mem 0x2000 &&& PTE_READ_WRITE = 0 := by
  refine ⟨by decide, by decide, by decide, by decide, by decide⟩

/-- C3 (amended): when the long-mode walk reaches a present 4-KiB leaf PTE
with R/W clear, a Write translation raises `PageFault(1)` and the memory
write is not performed (state unchanged).  Huge-page leaves are exempt from
the check (see the counterexample). -/
theorem claim3_write_protect (s : CPUState) (va v : Nat)
    (pml4e pdpte pde pte : Nat)
    (hmode : s.mode = "long")
    (hpg : s.cr0 &&& CR0_PG ≠ 0)
    (hpae : s.cr4 &&& CR4_PAE ≠ 0)
    (hlme : s.efer &&& EFER_LME ≠ 0)
    (h1 : memReadBigUint64 s.mem
      (s.cr3 / 2 ^ 12 * 2 ^ 12 + ((va >>> 39) &&& (2 ^ 9 - 1)) * 8) = pml4e)
    (hp1 : pml4e &&& PTE_PRESENT ≠ 0)
    (h2 : memReadBigUint64 s.mem
      (pml4e / 2 ^ 12 * 2 ^ 12 + ((va >>> 30) &&& (2 ^ 9 - 1)) * 8) = pdpte)
    (hp2 : pdpte &&& PTE_PRESENT ≠ 0)
    (hps2 : pdpte &&& PTE_PAGE_SIZE = 0)
    (h3 : memReadBigUint64 s.mem
      (pdpte / 2 ^ 12 * 2 ^ 12 + ((va >>> 21) &&& (2 ^ 9 - 1)) * 8) = pde)
    (hp3 : pde &&& PTE_PRESENT ≠ 0)
    (hps3 : pde &&& PTE_PAGE_SIZE = 0)
    (h4 : memReadBigUint64 s.mem
      (pde / 2 ^ 12 * 2 ^ 12 + ((va >>> 12) &&& (2 ^ 9 - 1)) * 8) = pte)
    (hp4 : pte &&& PTE_PRESENT ≠ 0)
    (hrw : pte &&& PTE_READ_WRITE = 0) :
    translateVirtualToPhysical s va 1 "write" = Except.error (Err.pageFault 1) ∧
    writeVirtualUint8 va v s = (Except.error (Err.pageFault 1), s) := by
  have htr : translateVirtualToPhysical s va 1 "write" =
      Except.error (Err.pageFault 1) := by
    unfold translateVirtualToPhysical
    rw [if_neg (by rw [hmode]; decide)]
    simp only [hmode, h1, h2, h3, h4]
    rw [if_neg (by simp [hpg, hpae, hlme])]
    rw [if_neg hp1, if_neg hp2, if_neg (by simpa using hps2),
      if_neg hp3, if_neg (by simpa using hps3), if_neg hp4,
      if_pos (by exact ⟨by trivial, hrw⟩)]
  refine ⟨htr, ?_⟩
  unfold writeVirtualUint8
  rw [htr]

/-- Witness for C3 (amended) at a concrete input: a 4-KiB read-only page at
VA 0 write-faults with error code 1. -/
theorem claim3_write_protect_witness :
    translateVirtualToPhysical fourKReadOnly 0x10 1 "write" =
      Except.error (Err.pageFault 1) ∧
    writeVirtualUint8 0x10 0xAB fourKReadOnly =
      (Except.error (Err.pageFault 1), fourKReadOnly) := by
  exact claim3_write_protect fourKReadOnly 0x10 0xAB 0x2003 0x3003 0x4003 0x1
    rfl (by decide) (by decide) (by decide) (by decide) (by decide) (by decide)
    (by decide) (by decide) (by decide) (by decide) (by decide) (by decide)
    (by decide) (by decide)

theorem setRegField_regs_same (s : CPUState) (f : String) (v : Nat) :
    (setRegField s f v).regs f = v := by
  simp [setRegField]

/-- C5 (amended): in real mode, delivery through a present IDT gate pushes,
as 8-byte slots, the assembled RFLAGS, the zero-extended selector, RIP,
then the error code exactly when one accompanies the delivery (only the
synchronous page-fault path supplies one; queued vectors are delivered
without), then the vector number; RSP decreases by 8 per slot and RIP
becomes the decoded handler offset. -/
theorem claim5_interrupt_frame (s : CPUState) (n : Nat) (ec : Option Nat)
    (hmode : s.mode = "real")
    (hrsp : 40 ≤ s.regs "rsp")
    (hpresent : memReadBigUint64 s.mem (s.idtrBase + n * 16) >>> 40 % 2 ^ 8 / 2 ^ 7 % 2 ≠ 0) :
    (triggerInterrupt n ec s).1 = Except.ok () ∧
    (triggerInterrupt n ec s).2.rip =
      memReadBigUint64 s.mem (s.idtrBase + n * 16 + 8) % 2 ^ 32 * 2 ^ 32 +
      memReadBigUint64 s.mem (s.idtrBase + n * 16) >>> 48 % 2 ^ 16 * 2 ^ 16 +
      memReadBigUint64 s.mem (s.idtrBase + n * 16) % 2 ^ 16 ∧
    (triggerInterrupt n ec s).2.regs "rsp" =
      s.regs "rsp" - 8 * (4 + (if ec.isSome then 1 else 0)) ∧
    memReadBigUint64 (triggerInterrupt n ec s).2.mem (s.regs "rsp" - 8) =
      assembleRFlags s ∧
    memReadBigUint64 (triggerInterrupt n ec s).2.mem (s.regs "rsp" - 16) =
      memReadBigUint64 s.mem (s.idtrBase + n * 16) >>> 16 % 2 ^ 16 ∧
    memReadBigUint64 (triggerInterrupt n ec s).2.mem (s.regs "rsp" - 24) =
      s.rip % 2 ^ 64 ∧
    (∀ c, ec = some c →
      memReadBigUint64 (triggerInterrupt n ec s).2.mem (s.regs "rsp" - 32) = c % 2 ^ 64 ∧
      memReadBigUint64 (triggerInterrupt n ec s).2.mem (s.regs "rsp" - 40) = n % 2 ^ 64) ∧
    (ec = none →
      memReadBigUint64 (triggerInterrupt n ec s).2.mem (s.regs "rsp" - 32) = n % 2 ^ 64) := by
  rcases ec with _ | c
  · refine ⟨?_, ?_, ?_, ?_, ?_, ?_, ?_, ?_⟩ <;>
      simp only [triggerInterrupt, M_bind_eq, getS_run, modifyS_run, pure_run,
        throwE_run, readVirtualBigUint64_real _ _ hmode, setRegField_mode,
        setRegField_mem, setRegField_rip, setRegField_idtrBase, setRegField_flags,
        setRegField_regs_same, assembleRFlags_setRegField, hmode, hpresent,
        writeVirtualBigUint64_real, ne_eq, not_false_eq_true, reduceIte]
    · norm_num
      omega
    · repeat rw [memReadBigUint64_write_disjoint _ _ _ _ (by omega)]
      rw [memReadBigUint64_write_same2 _ _ _ _ (by omega)]
      exact Nat.mod_eq_of_lt (assembleRFlags_lt s)
    · repeat rw [memReadBigUint64_write_disjoint _ _ _ _ (by omega)]
      rw [memReadBigUint64_write_same2 _ _ _ _ (by omega)]
      omega
    · repeat rw [memReadBigUint64_write_disjoint _ _ _ _ (by omega)]
      rw [memReadBigUint64_write_same2 _ _ _ _ (by omega)]
    · exact fun c hc => Option.noConfusion hc
    · intro hc
      rw [memReadBigUint64_write_same2 _ _ _ _ (by omega)]
  · refine ⟨?_, ?_, ?_, ?_, ?_, ?_, ?_, ?_⟩ <;>
      simp only [triggerInterrupt, M_bind_eq, getS_run, modifyS_run, pure_run,
        throwE_run, readVirtualBigUint64_real _ _ hmode, setRegField_mode,
        setRegField_mem, setRegField_rip, setRegField_idtrBase, setRegField_flags,
        setRegField_regs_same, assembleRFlags_setRegField, hmode, hpresent,
        writeVirtualBigUint64_real, ne_eq, not_false_eq_true, reduceIte]
    · norm_num
      omega
    · repeat rw [memReadBigUint64_write_disjoint _ _ _ _ (by omega)]
      rw [memReadBigUint64_write_same2 _ _ _ _ (by omega)]
      exact Nat.mod_eq_of_lt (assembleRFlags_lt s)
    · repeat rw [memReadBigUint64_write_disjoint _ _ _ _ (by omega)]
      rw [memReadBigUint64_write_same2 _ _ _ _ (by omega)]
      omega
    · repeat rw [memReadBigUint64_write_disjoint _ _ _ _ (by omega)]
      rw [memReadBigUint64_write_same2 _ _ _ _ (by omega)]
    · intro c' hc
      injection hc with h'
      subst h'
      refine ⟨?_, ?_⟩ <;>
        · repeat rw [memReadBigUint64_write_disjoint _ _ _ _ (by omega)]
          rw [memReadBigUint64_write_same2 _ _ _ _ (by omega)]
    · exact fun hc => Option.noConfusion hc

/-- Witness for C5 (amended) at a concrete input: delivering vector 14 with
error code 2 pushes five 8-byte slots. -/
theorem claim5_interrupt_frame_witness :
    (triggerInterrupt 14 (some 2) deliveryState14).1 = Except.ok () ∧
    (triggerInterrupt 14 (some 2) deliveryState14).2.regs "rsp" =
      deliveryState14.regs "rsp" -
        8 * (4 + (if (some 2 : Option Nat).isSome then 1 else 0)) := by
  have h := claim5_interrupt_frame deliveryState14 14 (some 2) rfl
    (by decide) (by decide)
  exact ⟨h.1, h.2.2.1⟩

/-- C5 counterexample: vector 8 is in the claim's has-error-code set, but a
delivery of vector 8 (as `step` performs it for queued interrupts, passing
no error code) pushes only four slots: RSP decreases by 32, not 40, and the
slot the claim reserves for the error code holds the vector number. -/
theorem claim5_counterexample :
    (triggerInterrupt 8 none deliveryState8).1 = Except.ok () ∧
    (triggerInterrupt 8 none deliveryState8).2.regs "rsp" = 0x8000 - 8 * 4 ∧
    (triggerInterrupt 8 none deliveryState8).2.regs "rsp" ≠ 0x8000 - 8 * 5 ∧
    memReadBigUint64 (triggerInterrupt 8 none deliveryState8).2.mem
      (0x8000 - 8 * 4) = 8 := by
  refine ⟨by decide, by decide, by decide, by decide⟩


/-! ### Structural lemmas for `step` -/

theorem setS_run (t s : CPUState) : setS t s = (Except.ok (), t) := rfl

theorem tryCatch_run {a : Type} (x : M a) (h : Err → M a) (s : CPUState) :
    M.tryCatch x h s = match x s with
      | (Except.error e, s') => h e s'
      | r => r := rfl

/-- When IF is set and a vector is pending, `step` dequeues and delivers it
and then *continues* with the fetch-decode-execute body from the delivered
state: the delivery does not end the step. -/
theorem step_delivers (s : CPUState) (n : Nat) (rest : List Nat)
    (hIF : s.flags.iflag ≠ 0) (hQ : s.interruptQueue = n :: rest)
    (hok : (triggerInterrupt n none (dequeuedState s rest)).1 = Except.ok ())
    (hhalt : (triggerInterrupt n none (dequeuedState s rest)).2.halted = false) :
    step s = M.tryCatch (stepBody s.rip)
      (fun e => match e with
        | Err.pageFault code => do
            modifyS (fun t => { t with rip := s.rip })
            triggerInterrupt 14 (some code)
            pure true
        | e' => throwE e')
      ((triggerInterrupt n none (dequeuedState s rest)).2) := by
  have hpair : triggerInterrupt n none (dequeuedState s rest) =
      (Except.ok (), (triggerInterrupt n none (dequeuedState s rest)).2) := by
    rw [← hok]
  unfold step
  simp only [dequeuedState] at hpair hhalt ⊢
  simp only [M_bind_eq, getS_run, modifyS_run, setS_run, pure_run, hQ,
    ne_eq, reduceCtorEq, not_false_eq_true, and_true]
  rw [if_pos hIF]
  simp only [M_bind_eq, setS_run]
  rw [hpair]
  simp only [M_bind_eq, getS_run, pure_run, hhalt, Bool.false_eq_true, if_false]
  try rfl

/-- Unfolding one iteration of the prefix loop when the fetched byte is not
a prefix (CR0.PE clear, so the fetch is a raw physical read). -/
theorem readPfxLoop16_nonpfx (p : DecodedPfx) (t : CPUState) (b : Nat)
    (hpe : t.cr0 &&& CR0_PE = 0)
    (hb : memReadUint8 t.mem t.rip = b)
    (h66 : b ≠ 0x66) (h67 : b ≠ 0x67) (hrex : b &&& 0xF0 ≠ 0x40) :
    readPfxLoop 16 p t = (Except.ok (b, p), { t with rip := t.rip + 1 }) := by
  have h1 : readPfxLoop 16 p = (do
      let byte ← readInstructionByte
      if byte = 0x66 then do
        modifyS (fun u => { u with operandSizeOverride := true })
        readPfxLoop 15 p
      else if byte = 0x67 then do
        modifyS (fun u => { u with addressSizeOverride := true })
        readPfxLoop 15 p
      else if byte &&& 0xF0 = 0x40 then
        readPfxLoop 15
          { rexPref := byte, rexW := (byte &&& 0x08) >>> 3,
            rexR := (byte &&& 0x04) >>> 2, rexX := (byte &&& 0x02) >>> 1,
            rexB := byte &&& 0x01 }
      else
        pure (byte, p)) := rfl
  rw [h1]
  unfold readInstructionByte
  simp only [M_bind_eq, getS_run, modifyS_run, pure_run, hpe, hb, ne_eq,
    not_true_eq_false, reduceIte, h66, h67, hrex, not_false_eq_true, if_false]

/-- Executing a NOP (0x90) with CR0.PE clear: the byte at RIP is consumed
and the body reports a handled instruction. -/
theorem stepBody_nop (r : Nat) (t : CPUState)
    (hpe : t.cr0 &&& CR0_PE = 0)
    (hb : memReadUint8 t.mem t.rip = 0x90) :
    stepBody r t = (Except.ok true, { t with rip := t.rip + 1 }) := by
  unfold stepBody
  simp only [M_bind_eq,
    readPfxLoop16_nonpfx _ t 0x90 hpe hb (by decide) (by decide) (by decide),
    getS_run, pure_run, Nat.reduceEqDiff, reduceIte]

/-- A halted CPU with nothing deliverable idles: `step` only clears the
per-step override fields and reports success. -/
theorem step_idles (u : CPUState) (huH : u.halted = true)
    (huI : u.flags.iflag = 0 ∨ u.interruptQueue = []) :
    step u = (Except.ok true,
      { u with operandSizeOverride := false, addressSizeOverride := false }) := by
  have hc : ¬(u.flags.iflag ≠ 0 ∧ u.interruptQueue ≠ []) := by
    rcases huI with h | h <;> simp [h]
  unfold step
  simp only [M_bind_eq, getS_run, modifyS_run, pure_run, hc, if_false, huH,
    if_true]

/-! ### C4, C6, C8, C9, C10 -/

/-- C4: a `PageFault` escaping decode/execution makes `step` restore RIP to
the step-start snapshot, deliver vector 14 with the fault's error code and
return Running (`true`, with delivery failures propagating); any other
error propagates fatally out of `step` unchanged. -/
theorem claim4_pagefault_in_step (s sMid : CPUState) (c : Nat) (e : Err)
    (hNoInt : s.flags.iflag = 0 ∨ s.interruptQueue = [])
    (hHalt : s.halted = false) :
    (stepBody s.rip
        { s with operandSizeOverride := false, addressSizeOverride := false }
        = (Except.error (Err.pageFault c), sMid) →
      step s = (do
        triggerInterrupt 14 (some c)
        (pure true : M Bool)) { sMid with rip := s.rip }) ∧
    ((∀ c', e ≠ Err.pageFault c') →
      stepBody s.rip
        { s with operandSizeOverride := false, addressSizeOverride := false }
        = (Except.error e, sMid) →
      step s = (Except.error e, sMid)) := by
  have hc : ¬(s.flags.iflag ≠ 0 ∧ s.interruptQueue ≠ []) := by
    rcases hNoInt with h | h <;> simp [h]
  constructor
  · intro hBody
    rw [hHalt] at hBody
    unfold step M.tryCatch
    simp only [M_bind_eq, getS_run, modifyS_run, pure_run, throwE_run, hc,
      if_false, hHalt, Bool.false_eq_true, hBody]
  · intro hNotPF hBody
    rw [hHalt] at hBody
    unfold step M.tryCatch
    simp only [M_bind_eq, getS_run, modifyS_run, pure_run, throwE_run, hc,
      if_false, hHalt, Bool.false_eq_true, hBody]


/-- Witness for C4 at a concrete input: an instruction fetch from an
unmapped page in long mode is caught inside `step`, vector 14 is delivered
with error code 0 (five slots pushed) and execution resumes at the
handler 0x3000. -/
theorem claim4_pagefault_in_step_witness :
    step pfFetchState = (do
      triggerInterrupt 14 (some 0)
      (pure true : M Bool)) pfRecoveryTarget :=
  (claim4_pagefault_in_step pfFetchState
    { pfFetchState with
      operandSizeOverride := false
      addressSizeOverride := false } 0 (Err.jsError "unused")
    (Or.inl rfl) rfl).1 rfl

/-- C6 counterexample: on a halted CPU with IF=1 and vector 32 pending,
`step` delivers the interrupt and then continues decoding at the handler
within the same call: the handler's NOP at 0x2000 executes, leaving
RIP = 0x2001, so the delivery does not by itself conclude the step. -/
theorem claim6_counterexample :
    (step haltedPendingState).1 = Except.ok true ∧
    (step haltedPendingState).2.rip = 0x2001 ∧
    (0x2001 : Nat) ≠ 0x2000 ∧
    (step haltedPendingState).2.halted = false ∧
    (step haltedPendingState).2.interruptQueue = [] := by
  have hd := step_delivers haltedPendingState 32 [] (by decide) rfl
    (by decide) (by decide)
  have hnop := stepBody_nop haltedPendingState.rip
    ((triggerInterrupt 32 none (dequeuedState haltedPendingState [])).2)
    (by decide) (by decide)
  rw [hd]
  simp only [tryCatch_run, hnop]
  exact ⟨trivial, by decide, by decide, by decide, by decide⟩

/-- C6 (amended): at the start of a step, when IF≠0 and a vector is
pending, `step` dequeues it, clears `halted`, delivers through
`triggerInterrupt`, and then the same call continues with the
fetch-decode-execute body from the delivered state (the delivery does not
conclude the step); a halted CPU with nothing deliverable idles, `step`
returning success with only the per-step override fields cleared (so it
stays halted). -/
theorem claim6_interrupt_at_step_start (s u : CPUState) (n : Nat)
    (rest : List Nat)
    (hIF : s.flags.iflag ≠ 0) (hQ : s.interruptQueue = n :: rest)
    (hok : (triggerInterrupt n none (dequeuedState s rest)).1 = Except.ok ())
    (hhalt : (triggerInterrupt n none (dequeuedState s rest)).2.halted = false)
    (huH : u.halted = true) (huI : u.flags.iflag = 0 ∨ u.interruptQueue = []) :
    step s = M.tryCatch (stepBody s.rip)
      (fun e => match e with
        | Err.pageFault code => do
            modifyS (fun t => { t with rip := s.rip })
            triggerInterrupt 14 (some code)
            pure true
        | e' => throwE e')
      ((triggerInterrupt n none (dequeuedState s rest)).2) ∧
    step u = (Except.ok true,
      { u with operandSizeOverride := false, addressSizeOverride := false }) :=
  ⟨step_delivers s n rest hIF hQ hok hhalt, step_idles u huH huI⟩

/-- Witness for C6 (amended) at concrete inputs: the halted CPU with
vector 32 pending continues into the executor after delivery, and a halted
CPU with an empty queue idles. -/
theorem claim6_interrupt_at_step_start_witness :
    step haltedPendingState = M.tryCatch (stepBody haltedPendingState.rip)
      (fun e => match e with
        | Err.pageFault code => do
            modifyS (fun t => { t with rip := haltedPendingState.rip })
            triggerInterrupt 14 (some code)
            pure true
        | e' => throwE e')
      ((triggerInterrupt 32 none (dequeuedState haltedPendingState [])).2) ∧
    step { initCPU with halted := true } = (Except.ok true,
      { initCPU with
        halted := true
        operandSizeOverride := false
        addressSizeOverride := false }) :=
  claim6_interrupt_at_step_start haltedPendingState
    { initCPU with halted := true } 32 [] (by decide) rfl (by decide)
    (by decide) rfl (Or.inr rfl)

/-- C8: the POP r/m handler first adds the operand size to RSP and then
evaluates `this.writeRegister(rmOperand.name, value, sizeBytes)` with
`value` declared only on a later line, so executing `8F C0` (POP AX in
real mode) bumps RSP by 2 and throws a `ReferenceError` that escapes
`step`; no value is read from [RSP] and no operand is written. -/
theorem claim8_poprm_reference_error :
    (step popRmState).1 =
      Except.error (Err.jsError "ReferenceError: value is not initialized") ∧
    (step popRmState).2.regs "rsp" = 0x8002 ∧
    (step popRmState).2.rip = 0x7C02 ∧
    (step popRmState).2.regs "ax" = 0 := by
  refine ⟨by decide, by decide, by decide, by decide⟩

/-- C9 counterexample: opcode 0xF5 has no handler; `step` returns failure
(`false`) but RIP has advanced past the opcode byte (to 0x7C01), it is not
restored to the step-start value 0x7C00. -/
theorem claim9_counterexample :
    (step (opcodeProbeState 0xF5)).1 = Except.ok false ∧
    (step (opcodeProbeState 0xF5)).2.rip = 0x7C01 ∧
    (0x7C01 : Nat) ≠ 0x7C00 := by
  refine ⟨by decide, by decide, by decide⟩

/-- C9 (amended): for every one-byte opcode with no handler (executed in
real mode with no prefixes), `step` returns failure and RIP points just
past the consumed opcode byte rather than being restored. -/
theorem claim9_unknown_opcode (b : Nat) (hb : b < 256)
    (hu : unknownOneByte b = true) :
    (step (opcodeProbeState b)).1 = Except.ok false ∧
    (step (opcodeProbeState b)).2.rip = 0x7C01 := by
  interval_cases b <;>
    first
      | exact absurd hu (by decide)
      | exact ⟨by decide, by decide⟩

/-- Witness for C9 (amended) at a concrete input: opcode 0x00. -/
theorem claim9_unknown_opcode_witness :
    (step (opcodeProbeState 0x00)).1 = Except.ok false ∧
    (step (opcodeProbeState 0x00)).2.rip = 0x7C01 := by
  exact claim9_unknown_opcode 0x00 (by decide) (by decide)

/-- C10 counterexample: PUSH RAX (0x50) in real mode decrements RSP by the
16-bit operand size (2), not by 8, and stores a 2-byte slot. -/
theorem claim10_counterexample :
    (step realPushState).1 = Except.ok true ∧
    (step realPushState).2.regs "rsp" = 0x7FFE ∧
    ((0x7FFE : Nat) ≠ 0x8000 - 8) ∧
    memReadUint16 (step realPushState).2.mem 0x7FFE = 0x1234 := by
  refine ⟨by decide, by decide, by decide, by decide⟩

/-- C10 (amended): PUSH/POP reg use 8-byte slots carrying the full 64-bit
register only in long mode (there even under a 0x66 prefix); in real
(and protected) mode they use the effective operand size (2 or 4 bytes).
Shown on concrete runs: a long-mode PUSH (with and without 0x66) moves RSP
by 8 and stores the full register, a long-mode POP loads 8 bytes and moves
RSP by 8, and a real-mode PUSH moves RSP by 2. -/
theorem claim10_push_pop_sizes :
    ((step longPushState).1 = Except.ok true ∧
     (step longPushState).2.regs "rsp" = 0x7FF8 ∧
     memReadBigUint64 (step longPushState).2.mem 0x7FF8 = 0xDEADBEEFCAFEBABE ∧
     (step longPushState).2.rip = 0x7C01) ∧
    ((step longPush66State).1 = Except.ok true ∧
     (step longPush66State).2.regs "rsp" = 0x7FF8 ∧
     (step longPush66State).2.rip = 0x7C02) ∧
    ((step longPopState).1 = Except.ok true ∧
     (step longPopState).2.regs "rax" = 0x1122334455667788 ∧
     (step longPopState).2.regs "rsp" = 0x9008) ∧
    ((step realPushState).2.regs "rsp" = realPushState.regs "rsp" - 2) := by
  refine ⟨⟨by decide, by decide, by decide, by decide⟩,
    ⟨by decide, by decide, by decide⟩,
    ⟨by decide, by decide, by decide⟩, by decide⟩

/-! ### C7: memory characterization of `setupIdentityPaging` -/

theorem writeBytesLE_get_in :
    ∀ (n : Nat) (m : Mem) (addr v a : Nat), addr ≤ a → a < addr + n →
      writeBytesLE m addr v n a = v / 256 ^ (a - addr) % 256 := by
  intro n
  induction n with
  | zero => intro m addr v a h1 h2; omega
  | succ k ih =>
    intro m addr v a h1 h2
    show writeBytesLE (memWriteUint8 m addr v) (addr + 1) (v / 256) k a = _
    rcases Nat.eq_or_lt_of_le h1 with he | hlt
    · subst he
      rw [writeBytesLE_get_out _ k _ (addr + 1) addr (by omega)]
      unfold memWriteUint8
      rw [if_pos rfl]
      simp
    · rw [ih (memWriteUint8 m addr v) (addr + 1) (v / 256) a (by omega)
        (by omega), Nat.div_div_eq_div_mul]
      congr 2
      rw [← pow_succ']
      congr 1
      omega

theorem readBytesLE_eq_zero :
    ∀ (n : Nat) (m : Mem) (addr : Nat),
      (∀ x, addr ≤ x → x < addr + n → m x = 0) →
      readBytesLE m addr n = 0 := by
  intro n
  induction n with
  | zero => intro m addr _; rfl
  | succ k ih =>
    intro m addr h
    show m addr % 256 + 256 * readBytesLE m (addr + 1) k = 0
    rw [h addr (by omega) (by omega),
      ih m (addr + 1) (fun x h1 h2 => h x (by omega) (by omega))]

theorem zeroTablesAux_succ (p4 pp pd pt i k : Nat) (m : Mem) :
    zeroTablesAux p4 pp pd pt i (k + 1) m =
      zeroTablesAux p4 pp pd pt (i + 1) k
        (memWriteBigUint64
          (memWriteBigUint64
            (memWriteBigUint64
              (memWriteBigUint64 m (p4 + i * 8) 0) (pp + i * 8) 0)
            (pd + i * 8) 0)
          (pt + i * 8) 0) := rfl

theorem zeroTablesAux_get_out (p4 pp pd pt : Nat) :
    ∀ (k i a : Nat) (m : Mem),
      (a < p4 + 8 * i ∨ p4 + 8 * (i + k) ≤ a) →
      (a < pp + 8 * i ∨ pp + 8 * (i + k) ≤ a) →
      (a < pd + 8 * i ∨ pd + 8 * (i + k) ≤ a) →
      (a < pt + 8 * i ∨ pt + 8 * (i + k) ≤ a) →
      zeroTablesAux p4 pp pd pt i k m a = m a := by
  intro k
  induction k with
  | zero => intro i a m _ _ _ _; rfl
  | succ n ih =>
    intro i a m h1 h2 h3 h4
    rw [zeroTablesAux_succ,
      ih (i + 1) a _ (by omega) (by omega) (by omega) (by omega)]
    unfold memWriteBigUint64
    rw [writeBytesLE_get_out _ 8 _ _ _ (by omega),
      writeBytesLE_get_out _ 8 _ _ _ (by omega),
      writeBytesLE_get_out _ 8 _ _ _ (by omega),
      writeBytesLE_get_out _ 8 _ _ _ (by omega)]

theorem zeroTablesAux_get_in (p4 pp pd pt : Nat) :
    ∀ (k i a : Nat) (m : Mem),
      ((p4 + 8 * i ≤ a ∧ a < p4 + 8 * (i + k)) ∨
       (pp + 8 * i ≤ a ∧ a < pp + 8 * (i + k)) ∨
       (pd + 8 * i ≤ a ∧ a < pd + 8 * (i + k)) ∨
       (pt + 8 * i ≤ a ∧ a < pt + 8 * (i + k))) →
      zeroTablesAux p4 pp pd pt i k m a = 0 := by
  intro k
  induction k with
  | zero => intro i a m h; omega
  | succ n ih =>
    intro i a m h
    rw [zeroTablesAux_succ]
    by_cases hrec :
      (p4 + 8 * (i + 1) ≤ a ∧ a < p4 + 8 * (i + 1 + n)) ∨
      (pp + 8 * (i + 1) ≤ a ∧ a < pp + 8 * (i + 1 + n)) ∨
      (pd + 8 * (i + 1) ≤ a ∧ a < pd + 8 * (i + 1 + n)) ∨
      (pt + 8 * (i + 1) ≤ a ∧ a < pt + 8 * (i + 1 + n))
    · exact ih (i + 1) a _ hrec
    · push_neg at hrec
      rw [zeroTablesAux_get_out p4 pp pd pt n (i + 1) a _ (by omega)
        (by omega) (by omega) (by omega)]
      unfold memWriteBigUint64
      by_cases hpt : pt + 8 * i ≤ a ∧ a < pt + 8 * i + 8
      · rw [writeBytesLE_get_in 8 _ _ _ _ (by omega) (by omega)]
        simp
      · rw [writeBytesLE_get_out _ 8 _ _ _ (by omega)]
        by_cases hpd : pd + 8 * i ≤ a ∧ a < pd + 8 * i + 8
        · rw [writeBytesLE_get_in 8 _ _ _ _ (by omega) (by omega)]
          simp
        · rw [writeBytesLE_get_out _ 8 _ _ _ (by omega)]
          by_cases hpp : pp + 8 * i ≤ a ∧ a < pp + 8 * i + 8
          · rw [writeBytesLE_get_in 8 _ _ _ _ (by omega) (by omega)]
            simp
          · rw [writeBytesLE_get_out _ 8 _ _ _ (by omega)]
            rw [writeBytesLE_get_in 8 _ _ _ _ (by omega) (by omega)]
            simp

/-- An 8-byte read from inside any of the four zeroed tables yields 0. -/
theorem zeroTables_read_zero (m : Mem) (p4 pp pd pt b : Nat)
    (h : (p4 ≤ b ∧ b + 8 ≤ p4 + 4096) ∨ (pp ≤ b ∧ b + 8 ≤ pp + 4096) ∨
         (pd ≤ b ∧ b + 8 ≤ pd + 4096) ∨ (pt ≤ b ∧ b + 8 ≤ pt + 4096)) :
    memReadBigUint64 (zeroTables m p4 pp pd pt) b = 0 := by
  unfold memReadBigUint64 zeroTables
  apply readBytesLE_eq_zero
  intro x hx1 hx2
  exact zeroTablesAux_get_in p4 pp pd pt 512 0 x m (by omega)

/-- `a ||| b = a + b` when `a` is aligned to `2^k` and `b < 2^k` (the
page-table values `base | P | RW | US` with 4-KiB-aligned bases). -/
theorem lor_eq_add_of_align (k a b : Nat) (ha : a % 2 ^ k = 0)
    (hb : b < 2 ^ k) :
    a ||| b = a + b := by
  obtain ⟨q, hq⟩ : 2 ^ k ∣ a := Nat.dvd_of_mod_eq_zero ha
  subst hq
  apply Nat.eq_of_testBit_eq
  intro i
  rw [Nat.testBit_lor]
  rcases Nat.lt_or_ge i k with hi | hi
  · have heven : ∃ y, 2 ^ (k - i) * q = 2 * y := by
      refine ⟨2 ^ (k - i - 1) * q, ?_⟩
      rw [← Nat.mul_assoc]; congr 1
      rw [← pow_succ']; congr 1; omega
    obtain ⟨y, hy⟩ := heven
    have h2i : (0 : Nat) < 2 ^ i := Nat.pos_pow_of_pos i (by norm_num)
    have ha' : 2 ^ k * q = 2 ^ i * (2 ^ (k - i) * q) := by
      rw [← Nat.mul_assoc, ← pow_add]
      congr 2
      omega
    have h1 : (2 ^ k * q).testBit i = false := by
      rw [Nat.testBit_to_div_mod, ha', Nat.mul_div_cancel_left _ h2i]
      simp [hy, Nat.mul_mod_right]
    have h2 : (2 ^ k * q + b).testBit i = b.testBit i := by
      rw [Nat.testBit_to_div_mod, Nat.testBit_to_div_mod, ha',
        Nat.mul_add_div h2i]
      simp only [decide_eq_decide]
      omega
    rw [h1, h2]
    simp
  · have hb' : b.testBit i = false :=
      Nat.testBit_lt_two_pow
        (lt_of_lt_of_le hb (Nat.pow_le_pow_right (by norm_num) hi))
    have h2k : (0 : Nat) < 2 ^ k := Nat.pos_pow_of_pos k (by norm_num)
    have hsplit : (2 : Nat) ^ i = 2 ^ k * 2 ^ (i - k) := by
      rw [← pow_add]; congr 1; omega
    have h2 : (2 ^ k * q + b).testBit i = (2 ^ k * q).testBit i := by
      rw [Nat.testBit_to_div_mod, Nat.testBit_to_div_mod, hsplit,
        ← Nat.div_div_eq_div_mul, ← Nat.div_div_eq_div_mul,
        Nat.mul_add_div h2k, Nat.mul_div_cancel_left _ h2k,
        Nat.div_eq_of_lt hb]
      simp
    rw [h2, hb']
    simp

/-- A page-table entry `w + 7` over a 4-KiB-aligned base `w`: present bit
set, PS bit clear, and masking the low 12 bits recovers `w`. -/
theorem aligned_entry_props (w : Nat) (hw : w % 4096 = 0) :
    ((w + 7) &&& PTE_PRESENT ≠ 0) ∧ ((w + 7) &&& PTE_PAGE_SIZE = 0) ∧
    ((w + 7) / 2 ^ 12 * 2 ^ 12 = w) ∧ ((w + 7) &&& PTE_READ_WRITE ≠ 0) := by
  refine ⟨?_, ?_, ?_, ?_⟩
  · unfold PTE_PRESENT
    rw [Nat.and_two_pow, Nat.testBit_to_div_mod]
    simp
    omega
  · unfold PTE_PAGE_SIZE
    rw [Nat.and_two_pow, Nat.testBit_to_div_mod]
    simp
    omega
  · rw [show (2 : Nat) ^ 12 = 4096 from by norm_num]
    omega
  · unfold PTE_READ_WRITE
    rw [Nat.and_two_pow, Nat.testBit_to_div_mod]
    simp
    omega

/-- Masking the low 12 bits of a 4-KiB-aligned address is the identity. -/
theorem aligned_base_mask (w : Nat) (hw : w % 4096 = 0) :
    w / 2 ^ 12 * 2 ^ 12 = w := by
  rw [show (2 : Nat) ^ 12 = 4096 from by norm_num]
  omega

theorem writePTEMem_succ (vs ps pt i k : Nat) (m : Mem) :
    writePTEMem vs ps pt i (k + 1) m =
      writePTEMem vs ps pt (i + 1) k
        (memWriteBigUint64 m
          (pt + (((vs + i * 4096) >>> 12) &&& (2 ^ 9 - 1)) * 8)
          ((ps + i * 4096) ||| 7)) := rfl

theorem writePTELoop_succ (vs ps pt i k : Nat) (m : Mem) :
    writePTELoop vs ps pt i (k + 1) m =
      (if i % 100 = 0 ∨ vs + i * 4096 = 0x7C00 ∨ vs + i * 4096 = 0x8000 then
        match writeAndVerifyPTE m
            (pt + (((vs + i * 4096) >>> 12) &&& (2 ^ 9 - 1)) * 8)
            ((ps + i * 4096) ||| 7) with
        | Except.error e => Except.error e
        | Except.ok mv => writePTELoop vs ps pt (i + 1) k mv
      else
        writePTELoop vs ps pt (i + 1) k
          (memWriteBigUint64 m
            (pt + (((vs + i * 4096) >>> 12) &&& (2 ^ 9 - 1)) * 8)
            ((ps + i * 4096) ||| 7))) := by
  simp only [writePTELoop]

/-- `writeAndVerifyPTE` succeeds whenever the value fits in 64 bits. -/
theorem writeAndVerifyPTE_ok (m : Mem) (addr value : Nat)
    (h : value < 2 ^ 64) :
    writeAndVerifyPTE m addr value =
      Except.ok (memWriteBigUint64 m addr value) := by
  show (if memReadBigUint64 (memWriteBigUint64 m addr value) addr ≠ value
      then Except.error (Err.jsError "Page table write verification failed.")
      else Except.ok (memWriteBigUint64 m addr value)) = _
  rw [memReadBigUint64_write_same, Nat.mod_eq_of_lt h]
  simp

/-- The PTE loop never throws when `ps` is 4-KiB aligned and the mapped
physical range fits in 64 bits, and it builds `writePTEMem`. -/
theorem writePTELoop_ok (vs ps pt : Nat) (hps4 : ps % 4096 = 0) :
    ∀ (k i : Nat) (m : Mem), ps + (i + k) * 4096 ≤ 2 ^ 64 →
      writePTELoop vs ps pt i k m =
        Except.ok (writePTEMem vs ps pt i k m) := by
  intro k
  induction k with
  | zero => intro i m _; rfl
  | succ n ih =>
    intro i m h
    have h64 : (2 : Nat) ^ 64 = 18446744073709551616 := by norm_num
    rw [h64] at h
    have hval : (ps + i * 4096) ||| 7 = ps + i * 4096 + 7 :=
      lor_eq_add_of_align 12 _ 7 (by omega) (by norm_num)
    rw [writePTELoop_succ, writePTEMem_succ]
    have hv := writeAndVerifyPTE_ok m
      (pt + (((vs + i * 4096) >>> 12) &&& (2 ^ 9 - 1)) * 8)
      ((ps + i * 4096) ||| 7) (by rw [hval, h64]; omega)
    by_cases hlog : i % 100 = 0 ∨ vs + i * 4096 = 0x7C00 ∨
        vs + i * 4096 = 0x8000
    · rw [if_pos hlog, hv]
      exact ih (i + 1) _ (by omega)
    · rw [if_neg hlog]
      exact ih (i + 1) _ (by omega)

/-- The PT index the loop writes for page `i` is `vs / 4096 + i` when `vs`
is 4-KiB aligned and the pages stay below 2 MiB (no mod-512 wrap). -/
theorem ptIndex_eq (vs i : Nat) (hv : vs % 4096 = 0)
    (h : vs + i * 4096 + 4096 ≤ 2 ^ 21) :
    ((vs + i * 4096) >>> 12) &&& (2 ^ 9 - 1) = vs / 4096 + i := by
  have h21 : (2 : Nat) ^ 21 = 2097152 := by norm_num
  rw [h21] at h
  rw [Nat.shiftRight_eq_div_pow, Nat.and_pow_two_sub_one_eq_mod,
    show (2 : Nat) ^ 12 = 4096 from by norm_num,
    show (2 : Nat) ^ 9 = 512 from by norm_num]
  omega

/-- Reads outside the slots the PTE loop writes are unchanged. -/
theorem writePTEMem_read_out (vs pt : Nat) (hv : vs % 4096 = 0) :
    ∀ (k i b ps : Nat) (m : Mem),
      vs + (i + k) * 4096 ≤ 2 ^ 21 →
      (b + 8 ≤ pt + (vs / 4096 + i) * 8 ∨
       pt + (vs / 4096 + i + k) * 8 ≤ b) →
      memReadBigUint64 (writePTEMem vs ps pt i k m) b =
        memReadBigUint64 m b := by
  intro k
  induction k with
  | zero => intro i b ps m _ _; rfl
  | succ n ih =>
    intro i b ps m h hb
    have h21 : (2 : Nat) ^ 21 = 2097152 := by norm_num
    rw [writePTEMem_succ, ptIndex_eq vs i hv (by rw [h21] at h ⊢; omega)]
    rw [ih (i + 1) b ps _ (by rw [h21] at h ⊢; omega)
      (by rw [h21] at h; omega)]
    exact memReadBigUint64_write_disjoint _ _ _ _ (by rw [h21] at h; omega)

/-- Reading back the slot for page `j` after the PTE loop. -/
theorem writePTEMem_read_at (vs pt : Nat) (hv : vs % 4096 = 0) :
    ∀ (k i j ps : Nat) (m : Mem),
      vs + (i + k) * 4096 ≤ 2 ^ 21 →
      i ≤ j → j < i + k →
      memReadBigUint64 (writePTEMem vs ps pt i k m)
          (pt + (vs / 4096 + j) * 8) =
        ((ps + j * 4096) ||| 7) % 2 ^ 64 := by
  intro k
  induction k with
  | zero => intro i j ps m _ hj1 hj2; omega
  | succ n ih =>
    intro i j ps m h hj1 hj2
    have h21 : (2 : Nat) ^ 21 = 2097152 := by norm_num
    rw [writePTEMem_succ, ptIndex_eq vs i hv (by rw [h21] at h ⊢; omega)]
    rcases Nat.eq_or_lt_of_le hj1 with he | hlt
    · subst he
      rw [writePTEMem_read_out vs pt hv n (i + 1) _ ps _
        (by rw [h21] at h ⊢; omega) (Or.inl (by omega))]
      exact memReadBigUint64_write_same _ _ _
    · exact ih (i + 1) j ps _ (by rw [h21] at h ⊢; omega) (by omega)
        (by omega)

/-- `setupIdentityPaging(memory, vs, vs, S, T)` with aligned inputs never
throws: it returns `T` (the PML4 base) and performs exactly the zeroing,
the three inter-table links, and the PTE-loop writes. -/
theorem setupIdentityPaging_ok (m : Mem) (vs S T : Nat)
    (hS : S % 4096 = 0) (hT4 : T % 4096 = 0) (hvs4 : vs % 4096 = 0)
    (hT64 : T + 3 * 4096 < 2 ^ 64) (hvs64 : vs + S ≤ 2 ^ 64) :
    setupIdentityPaging m vs vs S T =
      Except.ok (T, writePTEMem vs vs (T + 3 * 4096) 0 (S / 4096)
        (memWriteBigUint64 (memWriteBigUint64 (memWriteBigUint64
          (zeroTables m T (T + 4096) (T + 2 * 4096) (T + 3 * 4096))
          T ((T + 4096) ||| 7))
          (T + 4096) ((T + 2 * 4096) ||| 7))
          (T + 2 * 4096) ((T + 3 * 4096) ||| 7))) := by
  have h64 : (2 : Nat) ^ 64 = 18446744073709551616 := by norm_num
  have hl1 : (T + 4096) ||| 7 = T + 4096 + 7 :=
    lor_eq_add_of_align 12 _ 7 (by omega) (by norm_num)
  have hl2 : (T + 2 * 4096) ||| 7 = T + 2 * 4096 + 7 :=
    lor_eq_add_of_align 12 _ 7 (by omega) (by norm_num)
  have hl3 : (T + 3 * 4096) ||| 7 = T + 3 * 4096 + 7 :=
    lor_eq_add_of_align 12 _ 7 (by omega) (by norm_num)
  unfold setupIdentityPaging
  rw [if_neg (by simp [hS])]
  dsimp only
  rw [writeAndVerifyPTE_ok _ _ _ (by rw [hl1, h64]; rw [h64] at hT64; omega)]
  dsimp only
  rw [writeAndVerifyPTE_ok _ _ _ (by rw [hl2, h64]; rw [h64] at hT64; omega)]
  dsimp only
  rw [writeAndVerifyPTE_ok _ _ _ (by rw [hl3, h64]; rw [h64] at hT64; omega)]
  dsimp only
  rw [writePTELoop_ok vs vs (T + 3 * 4096) hvs4 (S / 4096) 0 _
    (by rw [h64] at hvs64 ⊢; omega)]

/-- C7 counterexample: tables at T = 0x1000, VA = PA = 0x200000 (the
2-MiB boundary), S = 0x1000 (a 4-KiB multiple).  The PTE loop wraps the
PT index mod 512 (entry 0), but the walk for 0x200000 needs PDE[1], which
stays zero, so translation of the very first mapped address page-faults
instead of returning it. -/
theorem claim7_counterexample :
    (0x1000 : Nat) % 4096 = 0 ∧
    translateVirtualToPhysical c7CounterState 0x200000 1 "read" =
      Except.error (Err.pageFault 0) ∧
    (Except.error (Err.pageFault 0) : Except Err Nat) ≠
      Except.ok 0x200000 := by
  have hok := setupIdentityPaging_ok (fun _ => 0) 0x200000 0x1000 0x1000
    (by decide) (by decide) (by decide) (by norm_num) (by norm_num)
  have hmem : c7CounterState.mem = c7CounterMemSpec := by
    show c7CounterMem = c7CounterMemSpec
    unfold c7CounterMem c7CounterSetup c7CounterMemSpec
    rw [hok]
  have hcr3 : c7CounterState.cr3 = 0x1000 := by
    show c7CounterCR3 = 0x1000
    unfold c7CounterCR3 c7CounterSetup
    rw [hok]
  have hloop : ∀ mm : Mem,
      writePTEMem 0x200000 0x200000 (0x1000 + 3 * 4096) 0 (0x1000 / 4096)
        mm = memWriteBigUint64 mm 0x4000 0x200007 :=
    fun mm => rfl
  have hr1 : memReadBigUint64 c7CounterState.mem 0x1000 = 0x2007 := by
    rw [hmem]
    unfold c7CounterMemSpec
    rw [hloop, memReadBigUint64_write_disjoint _ _ _ _ (by norm_num),
      memReadBigUint64_write_disjoint _ _ _ _ (by norm_num),
      memReadBigUint64_write_disjoint _ _ _ _ (by norm_num),
      memReadBigUint64_write_same]
    decide
  have hr2 : memReadBigUint64 c7CounterState.mem 0x2000 = 0x3007 := by
    rw [hmem]
    unfold c7CounterMemSpec
    rw [hloop, memReadBigUint64_write_disjoint _ _ _ _ (by norm_num),
      memReadBigUint64_write_disjoint _ _ _ _ (by norm_num),
      memReadBigUint64_write_same2 _ _ _ _ (by norm_num)]
    decide
  have hr3 : memReadBigUint64 c7CounterState.mem 0x3008 = 0 := by
    rw [hmem]
    unfold c7CounterMemSpec
    rw [hloop, memReadBigUint64_write_disjoint _ _ _ _ (by norm_num),
      memReadBigUint64_write_disjoint _ _ _ _ (by norm_num),
      memReadBigUint64_write_disjoint _ _ _ _ (by norm_num),
      memReadBigUint64_write_disjoint _ _ _ _ (by norm_num)]
    exact zeroTables_read_zero _ _ _ _ _ _ (by norm_num)
  have ha1 : c7CounterState.cr3 / 2 ^ 12 * 2 ^ 12 +
      ((0x200000 >>> 39) &&& (2 ^ 9 - 1)) * 8 = 0x1000 := by
    rw [hcr3]
    decide
  have ha2 : (0x2007 : Nat) / 2 ^ 12 * 2 ^ 12 +
      ((0x200000 >>> 30) &&& (2 ^ 9 - 1)) * 8 = 0x2000 := by decide
  have ha3 : (0x3007 : Nat) / 2 ^ 12 * 2 ^ 12 +
      ((0x200000 >>> 21) &&& (2 ^ 9 - 1)) * 8 = 0x3008 := by decide
  refine ⟨by decide, ?_, by decide⟩
  unfold translateVirtualToPhysical
  rw [if_neg (by decide)]
  rw [if_neg (by decide)]
  simp only [ha1, hr1, ha2, hr2, ha3, hr3]
  rw [if_neg (by decide), if_neg (by decide), if_neg (by decide),
    if_pos (by decide)]

/-- C7 (amended): `translate(x, 1, Read) = x` for all `x ∈ [v, v+S)`
after `setupIdentityPaging(memory, v, v, S, T)`, provided additionally
that `T` and `v` are 4-KiB aligned, the mapped range stays below 2 MiB
(`v + S ≤ 2^21`, so the single PML4/PDPT/PD entry the setup links and the
unwrapped PT indices actually cover it), and the tables fit in 64-bit
space; CR3 holds the returned base and long-mode paging is armed.  The
counterexample shows the claim fails without the 2-MiB restriction. -/
theorem claim7_identity_map (m : Mem) (vs S T x b : Nat) (m' : Mem)
    (s : CPUState)
    (hS : S % 4096 = 0) (hv4 : vs % 4096 = 0) (hT4 : T % 4096 = 0)
    (hrange : vs + S ≤ 2 ^ 21) (hTb : T + 3 * 4096 < 2 ^ 64)
    (hsetup : setupIdentityPaging m vs vs S T = Except.ok (b, m'))
    (hmode : s.mode = "long") (hpg : s.cr0 &&& CR0_PG ≠ 0)
    (hpae : s.cr4 &&& CR4_PAE ≠ 0) (hlme : s.efer &&& EFER_LME ≠ 0)
    (hcr3 : s.cr3 = b) (hmem : s.mem = m')
    (hx1 : vs ≤ x) (hx2 : x < vs + S) :
    translateVirtualToPhysical s x 1 "read" = Except.ok x := by
  have h21 : (2 : Nat) ^ 21 = 2097152 := by norm_num
  have h64 : (2 : Nat) ^ 64 = 18446744073709551616 := by norm_num
  rw [setupIdentityPaging_ok m vs S T hS hT4 hv4 hTb
    (by rw [h64] at hTb ⊢; rw [h21] at hrange; omega)] at hsetup
  simp only [Except.ok.injEq, Prod.mk.injEq] at hsetup
  obtain ⟨rfl, rfl⟩ := hsetup
  obtain ⟨e1p, e1s, e1m, e1w⟩ := aligned_entry_props (T + 4096) (by omega)
  obtain ⟨e2p, e2s, e2m, e2w⟩ :=
    aligned_entry_props (T + 2 * 4096) (by omega)
  obtain ⟨e3p, e3s, e3m, e3w⟩ :=
    aligned_entry_props (T + 3 * 4096) (by omega)
  obtain ⟨j, hj1, hj2⟩ :
      ∃ j, x / 4096 = vs / 4096 + j ∧ j < S / 4096 :=
    ⟨x / 4096 - vs / 4096, by omega, by rw [h21] at hrange; omega⟩
  obtain ⟨e4p, e4s, e4m, e4w⟩ :=
    aligned_entry_props ((vs / 4096 + j) * 4096) (by omega)
  have hl1 : (T + 4096) ||| 7 = T + 4096 + 7 :=
    lor_eq_add_of_align 12 _ 7 (by omega) (by norm_num)
  have hl2 : (T + 2 * 4096) ||| 7 = T + 2 * 4096 + 7 :=
    lor_eq_add_of_align 12 _ 7 (by omega) (by norm_num)
  have hl3 : (T + 3 * 4096) ||| 7 = T + 3 * 4096 + 7 :=
    lor_eq_add_of_align 12 _ 7 (by omega) (by norm_num)
  have hx21 : x < 2097152 := by rw [h21] at hrange; omega
  have hi39 : (x >>> 39) &&& (2 ^ 9 - 1) = 0 := by
    rw [Nat.shiftRight_eq_div_pow, Nat.and_pow_two_sub_one_eq_mod,
      show (2 : Nat) ^ 39 = 549755813888 from by norm_num,
      show (2 : Nat) ^ 9 = 512 from by norm_num]
    omega
  have hi30 : (x >>> 30) &&& (2 ^ 9 - 1) = 0 := by
    rw [Nat.shiftRight_eq_div_pow, Nat.and_pow_two_sub_one_eq_mod,
      show (2 : Nat) ^ 30 = 1073741824 from by norm_num,
      show (2 : Nat) ^ 9 = 512 from by norm_num]
    omega
  have hi21 : (x >>> 21) &&& (2 ^ 9 - 1) = 0 := by
    rw [Nat.shiftRight_eq_div_pow, Nat.and_pow_two_sub_one_eq_mod,
      show (2 : Nat) ^ 21 = 2097152 from by norm_num,
      show (2 : Nat) ^ 9 = 512 from by norm_num]
    omega
  have hi12 : (x >>> 12) &&& (2 ^ 9 - 1) = vs / 4096 + j := by
    rw [Nat.shiftRight_eq_div_pow, Nat.and_pow_two_sub_one_eq_mod,
      show (2 : Nat) ^ 12 = 4096 from by norm_num,
      show (2 : Nat) ^ 9 = 512 from by norm_num, hj1]
    rw [h21] at hrange
    omega
  have hrange' : vs + (0 + S / 4096) * 4096 ≤ 2 ^ 21 := by
    rw [h21] at hrange ⊢
    omega
  have hr1 : memReadBigUint64 s.mem T = T + 4096 + 7 := by
    rw [hmem, writePTEMem_read_out vs (T + 3 * 4096) hv4 (S / 4096) 0 T vs
      _ hrange' (Or.inl (by omega)),
      memReadBigUint64_write_disjoint _ _ _ _ (by omega),
      memReadBigUint64_write_disjoint _ _ _ _ (by omega),
      memReadBigUint64_write_same, hl1,
      Nat.mod_eq_of_lt (by rw [h64] at hTb ⊢; omega)]
  have hr2 : memReadBigUint64 s.mem (T + 4096) = T + 2 * 4096 + 7 := by
    rw [hmem, writePTEMem_read_out vs (T + 3 * 4096) hv4 (S / 4096) 0
      (T + 4096) vs _ hrange' (Or.inl (by omega)),
      memReadBigUint64_write_disjoint _ _ _ _ (by omega),
      memReadBigUint64_write_same2 _ _ _ _ rfl, hl2,
      Nat.mod_eq_of_lt (by rw [h64] at hTb ⊢; omega)]
  have hr3 : memReadBigUint64 s.mem (T + 2 * 4096) = T + 3 * 4096 + 7 := by
    rw [hmem, writePTEMem_read_out vs (T + 3 * 4096) hv4 (S / 4096) 0
      (T + 2 * 4096) vs _ hrange' (Or.inl (by omega)),
      memReadBigUint64_write_same2 _ _ _ _ rfl, hl3,
      Nat.mod_eq_of_lt (by rw [h64] at hTb ⊢; omega)]
  have hr4 : memReadBigUint64 s.mem
      (T + 3 * 4096 + (vs / 4096 + j) * 8) = (vs / 4096 + j) * 4096 + 7 := by
    rw [hmem, writePTEMem_read_at vs (T + 3 * 4096) hv4 (S / 4096) 0 j vs
      _ hrange' (by omega) (by omega),
      lor_eq_add_of_align 12 _ 7 (by omega) (by norm_num),
      Nat.mod_eq_of_lt (by rw [h64]; rw [h21] at hrange; omega)]
    rw [h21] at hrange
    omega
  unfold translateVirtualToPhysical
  rw [if_neg (by rw [hmode]; decide)]
  rw [if_neg (by simp [hmode, hpg, hpae, hlme])]
  simp only [hcr3, aligned_base_mask T hT4, hi39, hi30, hi21, hi12,
    Nat.zero_mul, Nat.add_zero, hr1, e1m, hr2, e2m, hr3, e3m, hr4, e4m]
  rw [if_neg e1p, if_neg e2p, if_neg (by simpa using e2s), if_neg e3p,
    if_neg (by simpa using e3s), if_neg e4p, if_neg (by simp)]
  rw [Nat.and_pow_two_sub_one_eq_mod,
    lor_eq_add_of_align 12 _ _
      (by rw [show (2 : Nat) ^ 12 = 4096 from by norm_num]; omega)
      (Nat.mod_lt _ (by norm_num))]
  have hfin : (vs / 4096 + j) * 4096 + x % 2 ^ 12 = x := by
    rw [show (2 : Nat) ^ 12 = 4096 from by norm_num]
    omega
  rw [hfin]

/-- Witness for C7 (amended) at a concrete input: one page at
VA = PA = 0x8000, tables at 0x1000, x = 0x8123. -/
theorem claim7_identity_map_witness :
    translateVirtualToPhysical c7WitnessState 0x8123 1 "read" =
      Except.ok 0x8123 :=
  claim7_identity_map (fun _ => 0) 0x8000 0x1000 0x1000 0x8123 0x1000
    c7WitnessMem c7WitnessState (by decide) (by decide) (by decide)
    (by norm_num) (by norm_num)
    (by
      rw [setupIdentityPaging_ok (fun _ => 0) 0x8000 0x1000 0x1000
        (by decide) (by decide) (by decide) (by norm_num) (by norm_num)]
      rfl)
    rfl (by decide) (by decide) (by decide) rfl rfl (by decide) (by decide)

end EmCPU
